import Mathlib

/-!
# SentinelWatch — verification of the detection engine against its specification

Shallow embedding of the SentinelWatch surveillance-detection engine
(`tail_detector.py`, `multi_location_tracker.py`, `web_ui.py`).

Modelling conventions, used throughout:
* Python `datetime` values are rationals (`ℚ`, seconds since epoch); ISO
  timestamp strings stored in profiles stay `String`, and parsing/formatting
  (`datetime.fromisoformat` / `.isoformat()`) is abstracted as the `Env`
  parameters `parseIso` / `isoOf`, since re-implementing calendar arithmetic is
  out of scope.  An unparsable timestamp is `parseIso s = none`.
* Python floats are rationals; `math.log` (used only by the stalker score) is
  abstracted as an explicit function parameter `logf`.
* Python dicts keyed by MAC are association lists (`List (String × _)`), with
  at most one binding per key maintained by the operations themselves.
* Fallible code paths (`try`/`except`) are modelled by explicit `Bool`/`Option`
  success parameters.
* Every `fire_alert` call site is embedded as an `Emitted` record tagged with
  the call `site`, so theorems can speak about which detector fired; the
  level/message/timestamp fields follow the source.  Outbound notification
  dispatch (`self._notif`, email/SMS) is an external collaborator and is not
  modelled.
-/

namespace SentinelWatch

/-- Alert severity levels used by `fire_alert` / `_push_alert`. -/
inductive Level where
  | INFO
  | WARNING
  | CRITICAL
deriving DecidableEq, Repr

/-- An entry of the global alert queue `_alert_queue`
(`{"level": ..., "message": ..., "timestamp": datetime.now().isoformat()}`),
with the timestamp modelled as a rational clock reading. -/
structure Alert where
  level : Level
  message : String
  timestamp : ℚ
deriving DecidableEq, Repr

/-- `_push_alert` (tail_detector.py lines 85-93): append the new entry, then
`if len(_alert_queue) > 200: _alert_queue.pop(0)`. -/
def pushAlert (q : List Alert) (a : Alert) : List Alert :=
  let q' := q ++ [a]
  if 200 < q'.length then q'.drop 1 else q'

/-- `get_recent_alerts` (tail_detector.py lines 95-97): under the lock,
`return list(_alert_queue[-limit:])`.  The first component is the returned
copy; the second is the queue after the call (the code only reads, so it is
the input queue).  Python's `q[-limit:]` is the whole list when `limit = 0`
(`-0 == 0`) and the last `limit` elements otherwise. -/
def getRecentAlerts (q : List Alert) (limit : ℕ) : List Alert × List Alert :=
  (if limit = 0 then q else q.drop (q.length - limit), q)

/-- Sample alert used to instantiate witnesses on concrete inputs. -/
def alertA : Alert := ⟨Level.INFO, "a", 0⟩

/-- Second sample alert used to instantiate witnesses on concrete inputs. -/
def alertB : Alert := ⟨Level.WARNING, "b", 1⟩

/-- C9: for every limit ≥ 1, `get_recent_alerts` returns exactly the
`min(limit, length)` most recent alerts of the bounded alert log, in their
original order (the returned list is the suffix of the log after dropping the
`length - limit` oldest entries), and leaves the log unchanged; for
`limit = 0` Python's `q[-0:]` is the whole list, so the entire log (whose
length `_push_alert` keeps at most 200) is returned rather than `[]`. -/
theorem getRecentAlerts_returns_recent_suffix :
    (∀ (q : List Alert) (limit : ℕ), (getRecentAlerts q limit).2 = q) ∧
    (∀ (q : List Alert) (limit : ℕ), 1 ≤ limit →
      (getRecentAlerts q limit).1 = q.drop (q.length - limit) ∧
      ((getRecentAlerts q limit).1).length = min limit q.length ∧
      q.take (q.length - limit) ++ (getRecentAlerts q limit).1 = q) ∧
    (∀ (q : List Alert), (getRecentAlerts q 0).1 = q) ∧
    (∀ (q : List Alert) (a : Alert), q.length ≤ 200 →
      (pushAlert q a).length ≤ 200) := by
  refine ⟨fun q limit => rfl, fun q limit h => ?_, fun q => rfl, fun q a h => ?_⟩
  · have hne : limit ≠ 0 := by omega
    refine ⟨by simp [getRecentAlerts, hne], ?_, ?_⟩
    · simp only [getRecentAlerts, hne, if_false]
      rw [List.length_drop]
      omega
    · simp [getRecentAlerts, hne]
  · have hdef : pushAlert q a =
      if 200 < (q ++ [a]).length then (q ++ [a]).drop 1 else q ++ [a] := rfl
    rw [hdef]
    split <;> rename_i hc <;>
      simp only [not_lt, List.length_drop, List.length_append,
        List.length_singleton] at * <;> omega

/-- Witness: `getRecentAlerts_returns_recent_suffix` evaluated on a concrete
two-element log with `limit = 1`, and `pushAlert` on a one-element log. -/
theorem getRecentAlerts_returns_recent_suffix_witness :
    ((1 : ℕ) ≤ 1 ∧
      (getRecentAlerts [alertA, alertB] 1).1 =
        List.drop ([alertA, alertB].length - 1) [alertA, alertB]) ∧
    ([alertA].length ≤ 200 ∧ (pushAlert [alertA] alertB).length ≤ 200) :=
  ⟨⟨by decide,
    (getRecentAlerts_returns_recent_suffix.2.1 [alertA, alertB] 1 (by decide)).1⟩,
   ⟨by decide,
    getRecentAlerts_returns_recent_suffix.2.2.2 [alertA] alertB (by decide)⟩⟩

/-- The static OUI vendor table `KNOWN_OUI` (tail_detector.py lines 54-73),
keyed by the lowercase first-octet prefix of a hardware address. -/
def KNOWN_OUI : List (String × String) :=
  [("00:17:f2", "Apple"), ("00:1c:b3", "Apple"), ("00:23:12", "Apple"),
   ("00:26:bb", "Apple"), ("04:26:65", "Apple"), ("10:dd:b1", "Apple"),
   ("18:af:61", "Apple"), ("28:cf:e9", "Apple"), ("34:c0:59", "Apple"),
   ("40:d3:2d", "Apple"), ("58:55:ca", "Apple"), ("60:03:08", "Apple"),
   ("70:56:81", "Apple"), ("78:4f:43", "Apple"), ("90:60:f1", "Apple"),
   ("a4:d1:8c", "Apple"), ("b0:65:bd", "Apple"), ("d0:03:4b", "Apple"),
   ("e0:f5:c6", "Apple"), ("f0:18:98", "Apple"), ("f4:f1:5a", "Apple"),
   ("00:17:c8", "Samsung"), ("08:fc:88", "Samsung"), ("18:89:5b", "Samsung"),
   ("38:01:46", "Samsung"), ("44:a7:cf", "Samsung"), ("60:6b:bd", "Samsung"),
   ("90:18:7c", "Samsung"), ("b4:3a:28", "Samsung"), ("d0:22:be", "Samsung"),
   ("00:0c:e7", "Google"), ("3c:5a:b4", "Google"), ("54:60:09", "Google"),
   ("f4:f5:d8", "Google"),
   ("00:21:6a", "Amazon"), ("38:f7:3d", "Amazon"), ("40:b4:cd", "Amazon"),
   ("74:75:48", "Amazon"), ("a0:02:dc", "Amazon"),
   ("00:0d:93", "Netgear"), ("30:46:9a", "Netgear"), ("b0:7f:b9", "Netgear"),
   ("00:1d:7e", "Cisco"), ("2c:54:2d", "Cisco"), ("58:ac:78", "Cisco"),
   ("00:18:60", "Ring"), ("28:6d:97", "Ring"), ("30:81:71", "Ring"),
   ("2c:aa:8e", "Ring"), ("00:04:4b", "Nvidia")]

/-- Character-wise model of Python `str.lower` (the table keys and hardware
addresses are ASCII, where `Char.toLower` agrees with Python). -/
def asciiLower (s : String) : String :=
  String.mk (s.data.map Char.toLower)

/-- `lookup_manufacturer` (tail_detector.py lines 75-76):
`KNOWN_OUI.get(mac[:8].lower(), "Unknown")`.  Total on every string — slicing
and dictionary lookup with a default cannot raise. -/
def lookup_manufacturer (mac : String) : String :=
  ((KNOWN_OUI.lookup (asciiLower (mac.take 8))).getD "Unknown")

/-- Manufacturer resolution for a normalized backend row
(tail_detector.py lines 229-230):
`blob.get("kismet.device.base.manuf", "") or lookup_manufacturer(row["devmac"])`.
The backend-supplied value wins when truthy (non-empty); the static prefix
table is only the fallback.  The same `backend or table` ordering appears in
`_update_profile` (line 254). -/
def resolveManufacturer (backendManuf : String) (mac : String) : String :=
  if backendManuf = "" then lookup_manufacturer mac else backendManuf

/-- Manufacturer resolution as the specification (§4.2) and claim C6 word it:
"resolved by the static address-prefix lookup table first, falling back to the
backend-supplied value, and to Unknown when both are unavailable". -/
def specResolveManufacturerTableFirst (backendManuf : String) (mac : String) : String :=
  match KNOWN_OUI.lookup (asciiLower (mac.take 8)) with
  | some v => v
  | none => if backendManuf = "" then "Unknown" else backendManuf

/-- Every lookup in a table whose values all satisfy `P` yields a value
satisfying `P`. -/
theorem lookup_sat {α β : Type} [BEq α] (P : β → Prop) [DecidablePred P]
    (l : List (α × β)) (hall : l.all (fun kv => decide (P kv.2)) = true)
    (k : α) (v : β) (hv : l.lookup k = some v) : P v := by
  induction l with
  | nil => simp [List.lookup] at hv
  | cons hd tl ih =>
    simp only [List.all_cons, Bool.and_eq_true, decide_eq_true_eq] at hall
    rw [List.lookup] at hv
    split at hv
    · cases hv
      exact hall.1
    · exact ih (by simpa using hall.2) hv

/-- C6 counterexample: a row whose backend blob reports manufacturer
"AcmeCorp" for an address whose prefix `00:17:f2` the static table maps to
"Apple".  The code returns the backend value, while the claim's table-first
resolution would return "Apple" — so the claimed resolution order is false on
the code. -/
theorem resolveManufacturer_backend_wins_counterexample :
    resolveManufacturer "AcmeCorp" "00:17:f2:aa:bb:cc" = "AcmeCorp" ∧
    specResolveManufacturerTableFirst "AcmeCorp" "00:17:f2:aa:bb:cc" = "Apple" ∧
    resolveManufacturer "AcmeCorp" "00:17:f2:aa:bb:cc" ≠
      specResolveManufacturerTableFirst "AcmeCorp" "00:17:f2:aa:bb:cc" := by
  refine ⟨rfl, ?_, ?_⟩ <;> decide

/-- C6 (amended): for every normalized backend row, the manufacturer is
resolved to the backend-supplied value when it is non-empty, falling back to
the static address-prefix lookup table, and to "Unknown" when the prefix is
unknown; resolution is total (never raises) and always non-empty. -/
theorem resolveManufacturer_backend_then_table (backendManuf mac : String) :
    resolveManufacturer backendManuf mac =
      (if backendManuf = "" then
        (KNOWN_OUI.lookup (asciiLower (mac.take 8))).getD "Unknown"
       else backendManuf) ∧
    resolveManufacturer backendManuf mac ≠ "" := by
  constructor
  · rfl
  · rw [resolveManufacturer]
    split
    · rw [lookup_manufacturer]
      cases hv : KNOWN_OUI.lookup (asciiLower (mac.take 8)) with
      | none => simp
      | some v =>
        have : v ≠ "" :=
          lookup_sat (fun s => s ≠ "") KNOWN_OUI (by decide) _ v hv
        simpa using this
    · assumption

/-- The `DeviceProfile` dataclass (tail_detector.py lines 103-134), with the
defaults of the source.  ISO timestamp fields stay strings (they are stored
and round-tripped verbatim); `encounter_score` (a Python float) is a
rational. -/
structure DeviceProfile where
  mac : String
  label : String := ""
  group : String := "unknown"
  manufacturer : String := ""
  ssids : List String := []
  first_seen : String := ""
  last_seen : String := ""
  total_encounters : Int := 0
  home_encounters : Int := 0
  roam_encounters : Int := 0
  encounter_score : ℚ := 0
  signal_history : List Int := []
  signal_trend : String := "unknown"
  modes_seen_in : List String := []
  notes : String := ""
  is_watchlisted : Bool := false
  cross_mode_detected : Bool := false
  first_seen_this_session : String := ""
deriving DecidableEq, Repr

/-- `display_name` (tail_detector.py lines 125-126):
`self.label if self.label else self.mac`. -/
def DeviceProfile.display_name (p : DeviceProfile) : String :=
  if p.label = "" then p.mac else p.label

/-- JSON-able values appearing in a serialized `DeviceProfile` dict: strings,
integers, floats (rationals), booleans, lists of strings and lists of
integers. -/
inductive Val where
  | str (v : String)
  | int (v : Int)
  | rat (v : ℚ)
  | bool (v : Bool)
  | strs (v : List String)
  | ints (v : List Int)
deriving DecidableEq, Repr

/-- `DeviceProfile.to_dict` (tail_detector.py lines 128-129): `asdict(self)`,
one entry per dataclass field, in declaration order. -/
def DeviceProfile.to_dict (p : DeviceProfile) : List (String × Val) :=
  [("mac", Val.str p.mac),
   ("label", Val.str p.label),
   ("group", Val.str p.group),
   ("manufacturer", Val.str p.manufacturer),
   ("ssids", Val.strs p.ssids),
   ("first_seen", Val.str p.first_seen),
   ("last_seen", Val.str p.last_seen),
   ("total_encounters", Val.int p.total_encounters),
   ("home_encounters", Val.int p.home_encounters),
   ("roam_encounters", Val.int p.roam_encounters),
   ("encounter_score", Val.rat p.encounter_score),
   ("signal_history", Val.ints p.signal_history),
   ("signal_trend", Val.str p.signal_trend),
   ("modes_seen_in", Val.strs p.modes_seen_in),
   ("notes", Val.str p.notes),
   ("is_watchlisted", Val.bool p.is_watchlisted),
   ("cross_mode_detected", Val.bool p.cross_mode_detected),
   ("first_seen_this_session", Val.str p.first_seen_this_session)]

/-- The dataclass field names, `cls.__dataclass_fields__.keys()`. -/
def deviceProfileFields : List String :=
  ["mac", "label", "group", "manufacturer", "ssids", "first_seen",
   "last_seen", "total_encounters", "home_encounters", "roam_encounters",
   "encounter_score", "signal_history", "signal_trend", "modes_seen_in",
   "notes", "is_watchlisted", "cross_mode_detected",
   "first_seen_this_session"]

/-- Keyword-argument lookup with a default: a field named `k` takes the dict's
value when present and its dataclass default otherwise.  Each decoder demands
the value shape that matches the field's annotation; a mismatched shape —
which CPython's unchecked dataclass constructor would accept, producing an
ill-typed profile a typed embedding cannot represent — is mapped to `none`. -/
def kwStr (d : List (String × Val)) (k : String) (dflt : String) : Option String :=
  match d.lookup k with
  | none => some dflt
  | some (Val.str v) => some v
  | some _ => none

/-- Keyword-argument lookup for an integer field. -/
def kwInt (d : List (String × Val)) (k : String) (dflt : Int) : Option Int :=
  match d.lookup k with
  | none => some dflt
  | some (Val.int v) => some v
  | some _ => none

/-- Keyword-argument lookup for a float field. -/
def kwRat (d : List (String × Val)) (k : String) (dflt : ℚ) : Option ℚ :=
  match d.lookup k with
  | none => some dflt
  | some (Val.rat v) => some v
  | some _ => none

/-- Keyword-argument lookup for a boolean field. -/
def kwBool (d : List (String × Val)) (k : String) (dflt : Bool) : Option Bool :=
  match d.lookup k with
  | none => some dflt
  | some (Val.bool v) => some v
  | some _ => none

/-- Keyword-argument lookup for a list-of-strings field. -/
def kwStrs (d : List (String × Val)) (k : String) (dflt : List String) :
    Option (List String) :=
  match d.lookup k with
  | none => some dflt
  | some (Val.strs v) => some v
  | some _ => none

/-- Keyword-argument lookup for a list-of-integers field. -/
def kwInts (d : List (String × Val)) (k : String) (dflt : List Int) :
    Option (List Int) :=
  match d.lookup k with
  | none => some dflt
  | some (Val.ints v) => some v
  | some _ => none

/-- The `cls(**kwargs)` call of `from_dict` on an already-filtered dict:
`mac` has no default (a missing `mac` raises `TypeError`, modelled as
`none`); every other field falls back to its dataclass default. -/
def deviceProfileOfKwargs (d : List (String × Val)) : Option DeviceProfile := do
  let mac ← match d.lookup "mac" with
            | some (Val.str v) => some v
            | _ => none
  let label ← kwStr d "label" ""
  let group ← kwStr d "group" "unknown"
  let manufacturer ← kwStr d "manufacturer" ""
  let ssids ← kwStrs d "ssids" []
  let first_seen ← kwStr d "first_seen" ""
  let last_seen ← kwStr d "last_seen" ""
  let total_encounters ← kwInt d "total_encounters" 0
  let home_encounters ← kwInt d "home_encounters" 0
  let roam_encounters ← kwInt d "roam_encounters" 0
  let encounter_score ← kwRat d "encounter_score" 0
  let signal_history ← kwInts d "signal_history" []
  let signal_trend ← kwStr d "signal_trend" "unknown"
  let modes_seen_in ← kwStrs d "modes_seen_in" []
  let notes ← kwStr d "notes" ""
  let is_watchlisted ← kwBool d "is_watchlisted" false
  let cross_mode_detected ← kwBool d "cross_mode_detected" false
  let first_seen_this_session ← kwStr d "first_seen_this_session" ""
  pure { mac, label, group, manufacturer, ssids, first_seen, last_seen,
         total_encounters, home_encounters, roam_encounters, encounter_score,
         signal_history, signal_trend, modes_seen_in, notes, is_watchlisted,
         cross_mode_detected, first_seen_this_session }

/-- `DeviceProfile.from_dict` (tail_detector.py lines 131-134): keep only the
keys that are dataclass fields
(`{k: v for k, v in d.items() if k in valid}`), then call the constructor
with the survivors as keyword arguments. -/
def DeviceProfile.from_dict (d : List (String × Val)) : Option DeviceProfile :=
  deviceProfileOfKwargs
    (d.filter (fun kv => deviceProfileFields.contains kv.1))

/-- Filtering `to_dict p` by the field-name set keeps every entry. -/
theorem to_dict_filter_fields (p : DeviceProfile) :
    (p.to_dict.filter (fun kv => deviceProfileFields.contains kv.1)) =
      p.to_dict := by
  rfl

/-- C10: `from_dict ∘ to_dict` is the identity on device profiles
(serialization round trip), and `from_dict` silently drops any dict keys that
are not dataclass fields, so a persisted registry entry carrying extra keys
still loads to the same profile. -/
theorem from_dict_to_dict_roundtrip :
    (∀ p : DeviceProfile, DeviceProfile.from_dict p.to_dict = some p) ∧
    (∀ (p : DeviceProfile) (extras : List (String × Val)),
      (∀ kv ∈ extras, ¬ deviceProfileFields.contains kv.1 = true) →
      DeviceProfile.from_dict (p.to_dict ++ extras) = some p) := by
  have hround : ∀ p : DeviceProfile,
      DeviceProfile.from_dict p.to_dict = some p := fun p => by
    cases p
    rfl
  refine ⟨hround, fun p extras hex => ?_⟩
  have hfe : extras.filter (fun kv => deviceProfileFields.contains kv.1) = [] := by
    rw [List.filter_eq_nil_iff]
    intro kv hkv
    simpa using hex kv hkv
  calc DeviceProfile.from_dict (p.to_dict ++ extras)
      = deviceProfileOfKwargs
          ((p.to_dict ++ extras).filter
            (fun kv => deviceProfileFields.contains kv.1)) := rfl
    _ = deviceProfileOfKwargs (p.to_dict.filter
          (fun kv => deviceProfileFields.contains kv.1) ++ extras.filter
          (fun kv => deviceProfileFields.contains kv.1)) := by
          rw [List.filter_append]
    _ = deviceProfileOfKwargs (p.to_dict.filter
          (fun kv => deviceProfileFields.contains kv.1)) := by
          rw [hfe, List.append_nil]
    _ = DeviceProfile.from_dict p.to_dict := rfl
    _ = some p := hround p

/-- Witness: the round trip and extra-key tolerance evaluated on a concrete
profile and a one-entry foreign-key dict. -/
theorem from_dict_to_dict_roundtrip_witness :
    DeviceProfile.from_dict (DeviceProfile.to_dict { mac := "aa:bb:cc:dd:ee:ff" }) =
      some { mac := "aa:bb:cc:dd:ee:ff" } ∧
    ((∀ kv ∈ [("legacy_key", Val.str "x")],
        ¬ deviceProfileFields.contains kv.1 = true) ∧
      DeviceProfile.from_dict
        (DeviceProfile.to_dict { mac := "aa:bb:cc:dd:ee:ff" } ++
          [("legacy_key", Val.str "x")]) = some { mac := "aa:bb:cc:dd:ee:ff" }) :=
  ⟨from_dict_to_dict_roundtrip.1 { mac := "aa:bb:cc:dd:ee:ff" },
   ⟨by decide,
    from_dict_to_dict_roundtrip.2 { mac := "aa:bb:cc:dd:ee:ff" }
      [("legacy_key", Val.str "x")] (by decide)⟩⟩

/-- Call sites of `fire_alert` inside the embedded detection loops, used to
tag each emitted alert with the detector that produced it (the source emits
plain strings; the tag is bookkeeping for the theorems, while level, message
and timestamp follow the source). -/
inductive Site where
  | watchlist_hit
  | approaching_device
  | cross_context
  | linger
  | arrival
  | unknown_streak
  | departure
  | persistence
  | info
deriving DecidableEq, Repr

/-- One `fire_alert` invocation: level and message as built by the source,
timestamp from the wall clock, plus the call-site tag. -/
structure Emitted where
  site : Site
  level : Level
  message : String
  timestamp : ℚ
deriving DecidableEq, Repr

/-- Ambient environment of a scan: the wall clock (`datetime.now()`) and the
abstracted ISO-8601 formatter/parser (`isoformat` / `fromisoformat`). -/
structure Env where
  now : ℚ
  isoOf : ℚ → String
  parseIso : String → Option ℚ

/-- The configuration values the embedded loops read (`self.timing`,
`self.thresholds`); the `.get` defaults of the source are 5, 15, 10 and -65
respectively. -/
structure Config where
  unknown_ssid_linger_minutes : ℚ := 5
  roam_scan_interval : ℚ := 15
  doorbell_scan_interval : ℚ := 10
  signal_approaching_threshold : Int := -65

/-- A normalized backend row as produced by `_parse_kismet_db`
(tail_detector.py lines 220-231): epoch timestamps as rationals, optional
signal, SSID list and the blob-reported manufacturer (possibly empty). -/
structure RawObs where
  mac : String
  first_time : Option ℚ := none
  last_time : Option ℚ := none
  signal : Option Int := none
  ssids : List String := []
  manufacturer : String := ""
deriving DecidableEq, Repr

/-- Python truthiness on an optional epoch timestamp:
`datetime.fromtimestamp(t) if raw.get(...) else now` — both a missing key and
the falsy epoch `0` fall back to `now`. -/
def timeOr (t : Option ℚ) (now : ℚ) : ℚ :=
  match t with
  | some v => if v = 0 then now else v
  | none => now

/-- Python `f"...{x}..."` rendering of an optional signal: the normalized rows
always carry the `signal` key, so `raw.get("signal", "?")` yields the value
itself — printed as `None` when it is `None`. -/
def pyShow : Option Int → String
  | some v => toString v
  | none => "None"

/-- Assign under a string key in an association-list dict, preserving the
position of an existing binding (`d[k] = v`). -/
def setKey {α : Type} : List (String × α) → String → α → List (String × α)
  | [], mac, v => [(mac, v)]
  | (k, w) :: t, mac, v =>
      if k = mac then (k, v) :: t else (k, w) :: setKey t mac v

/-- Remove a string key from an association-list dict
(`d.pop(k, None)` / `set.discard`). -/
def eraseKey {α : Type} (l : List (String × α)) (mac : String) :
    List (String × α) :=
  l.filter (fun kv => !(kv.1 == mac))

/-- SSID merge of `_update_profile` (tail_detector.py lines 273-275):
`for s in raw["ssids"]: if s and s not in p.ssids: p.ssids.append(s)`. -/
def mergeSsids (cur : List String) (incoming : List String) : List String :=
  incoming.foldl
    (fun acc s => if s ≠ "" ∧ ¬ acc.contains s then acc ++ [s] else acc) cur

/-- Signal-history append of `_update_profile` (lines 276-279): append, then
`if len > 20: keep the last 20`. -/
def sigAppend (h : List Int) (s : Int) : List Int :=
  let h' := h ++ [s]
  if 20 < h'.length then h'.drop (h'.length - 20) else h'

/-- Profile creation in `_update_profile` (tail_detector.py lines 259-267):
a fresh profile for an unseen address, with `total_encounters = 0` (the
common path below increments it to 1). -/
def mkProfile (env : Env) (raw : RawObs) (manufacturer : String) :
    DeviceProfile :=
  { mac := raw.mac
    manufacturer := manufacturer
    ssids := raw.ssids
    first_seen := env.isoOf (timeOr raw.first_time env.now)
    last_seen := env.isoOf (timeOr raw.last_time env.now)
    total_encounters := 0 }

/-- The mutation half of `_update_profile` (tail_detector.py lines 268-282),
applied to the profile fetched (or just created) for the row's address.  The
source performs the updates sequentially on the same object; since each
statement writes a field no later statement reads, the sequence equals this
single record update. -/
def updateProfileP (env : Env) (p : DeviceProfile) (raw : RawObs)
    (mode : String) : DeviceProfile :=
  { p with
    total_encounters := p.total_encounters + 1
    last_seen := env.isoOf (timeOr raw.last_time env.now)
    manufacturer :=
      if p.manufacturer = "" ∨ p.manufacturer = "Unknown" then
        resolveManufacturer raw.manufacturer raw.mac
      else p.manufacturer
    ssids := mergeSsids p.ssids raw.ssids
    signal_history :=
      match raw.signal with
      | some s => sigAppend p.signal_history s
      | none => p.signal_history
    modes_seen_in :=
      if mode ≠ "" ∧ p.modes_seen_in.contains mode = false then
        p.modes_seen_in ++ [mode]
      else p.modes_seen_in }

/-- `_update_profile` (tail_detector.py lines 252-282) over the in-memory
registry `self.devices`: get-or-create, mutate, store back. -/
def updateProfile (env : Env) (ds : List (String × DeviceProfile))
    (raw : RawObs) (mode : String) :
    DeviceProfile × List (String × DeviceProfile) :=
  let p0 := match ds.lookup raw.mac with
            | some p => p
            | none => mkProfile env raw (resolveManufacturer raw.manufacturer raw.mac)
  let p1 := updateProfileP env p0 raw mode
  (p1, setKey ds raw.mac p1)

/-- `_recency_score` (tail_detector.py lines 285-290):
`1 / (1 + max(0, days_since_last_seen))`, falling back to `0.1` when the
stored timestamp does not parse. -/
def recencyScore (env : Env) (last_seen_iso : String) : ℚ :=
  match env.parseIso last_seen_iso with
  | some t => 1 / (1 + max 0 ((env.now - t) / 86400))
  | none => 1/10

/-- `_compute_score` (tail_detector.py lines 292-293):
`total_encounters * recency`. -/
def computeScore (env : Env) (p : DeviceProfile) : ℚ :=
  (p.total_encounters : ℚ) * recencyScore env p.last_seen

/-- `calculate_signal_trend` (tail_detector.py lines 296-307) on the
profile's (post-update) signal history: window of the last ≤ 5 readings;
fewer than two readings give "unknown"; otherwise the delta of newest minus
oldest-in-window classifies the trend. -/
def calculate_signal_trend (history : List Int) : String :=
  let hist := history.drop (history.length - 5)
  if hist.length < 2 then "unknown"
  else
    let delta := hist.getLast?.getD 0 - hist.head?.getD 0
    if 5 < delta then "approaching"
    else if delta < -5 then "receding"
    else "stable"

/-- Message of the cross-context CRITICAL alert (tail_detector.py
lines 365-366). -/
def crossModeMessage (p : DeviceProfile) : String :=
  "Device " ++ p.display_name ++ " (" ++ p.mac ++
    ") was seen while roaming and is now at your HOME location. POTENTIAL SURVEILLANCE."

/-- `_check_cross_mode` (tail_detector.py lines 361-369): when the opposite
context tag is already in `modes_seen_in` and the sticky flag is still unset,
set the flag and fire one CRITICAL alert. -/
def checkCrossMode (env : Env) (p : DeviceProfile) (current_mode : String) :
    DeviceProfile × List Emitted :=
  let other := if current_mode = "HOME" then "ROAM" else "HOME"
  if p.modes_seen_in.contains other ∧ p.cross_mode_detected = false then
    ({ p with cross_mode_detected := true },
     [⟨Site.cross_context, Level.CRITICAL, crossModeMessage p, env.now⟩])
  else (p, [])

/-- Session-scoped linger bookkeeping: `_linger_first_seen` (address → wall
clock first seen this streak) and `_linger_alerted`. -/
structure LingerState where
  firstSeen : List (String × ℚ)
  alerted : List String
deriving DecidableEq, Repr

/-- Message of the linger WARNING (tail_detector.py lines 325-326); the
`{elapsed:.1f}` float formatting of the source is elided from the model. -/
def lingerMessage (mac ssidStr : String) (signal : Option Int) : String :=
  "Unknown device lingering near home: " ++ mac ++ " SSID:" ++ ssidStr ++
    " Signal:" ++ pyShow signal ++ " dBm"

/-- `_check_linger` (tail_detector.py lines 310-333).  `known` is
`mac in self.devices and self.devices[mac].label` (the negation of the
source's unknown test): a known device has its streak state dropped; an
unknown one is first recorded, then — once the elapsed minutes reach the
threshold and it has not alerted yet — marked alerted with one WARNING. -/
def checkLinger (now lingerMin : ℚ) (known : Bool) (mac : String)
    (ssids : List String) (signal : Option Int) (st : LingerState) :
    LingerState × List Emitted :=
  if known then
    (⟨eraseKey st.firstSeen mac, st.alerted.filter (fun x => !(x == mac))⟩, [])
  else
    match st.firstSeen.lookup mac with
    | none => (⟨setKey st.firstSeen mac now, st.alerted⟩, [])
    | some t0 =>
        if lingerMin ≤ (now - t0) / 60 ∧ ¬ st.alerted.contains mac then
          (⟨st.firstSeen, st.alerted ++ [mac]⟩,
           [⟨Site.linger, Level.WARNING,
             lingerMessage mac (ssids.headD "(hidden)") signal, now⟩])
        else (st, [])

/-- The profile `_update_profile` starts from: the registry entry when the
address is known, a fresh default profile otherwise (tail_detector.py
lines 259-267). -/
def getOrCreate (env : Env) (ds : List (String × DeviceProfile))
    (raw : RawObs) : DeviceProfile :=
  match ds.lookup raw.mac with
  | some p => p
  | none => mkProfile env raw (resolveManufacturer raw.manufacturer raw.mac)

/-- Per-observation body of `run_home_mode`'s scan loop (tail_detector.py
lines 383-389), acting on the fetched profile: update under the "HOME" tag,
bump `home_encounters`, recompute score and trend, run the cross-context
check, then the linger check. -/
def homeProfile (env : Env) (p0 : DeviceProfile) (raw : RawObs) :
    DeviceProfile :=
  let p1 := updateProfileP env p0 raw "HOME"
  { p1 with
    home_encounters := p1.home_encounters + 1
    encounter_score := computeScore env p1
    signal_trend := calculate_signal_trend p1.signal_history }

/-- Per-observation body of `run_home_mode` continued: the cross-context
check followed by the linger check on the updated profile. -/
def homeObsP (env : Env) (cfg : Config) (p0 : DeviceProfile)
    (ling : LingerState) (raw : RawObs) :
    DeviceProfile × LingerState × List Emitted :=
  let pc := checkCrossMode env (homeProfile env p0 raw) "HOME"
  let lc :=
    checkLinger env.now cfg.unknown_ssid_linger_minutes (pc.1.label ≠ "")
      raw.mac pc.1.ssids raw.signal ling
  (pc.1, lc.1, pc.2 ++ lc.2)

/-- `run_home_mode`'s per-observation processing over the registry: the
iteration mutates the profile object held in `self.devices`, so the
end-of-iteration registry holds the body's final profile. -/
def homeObs (env : Env) (cfg : Config) (ds : List (String × DeviceProfile))
    (ling : LingerState) (raw : RawObs) :
    List (String × DeviceProfile) × LingerState × List Emitted :=
  let (p', ling', as) := homeObsP env cfg (getOrCreate env ds raw) ling raw
  (setKey ds raw.mac p', ling', as)

/-- Message of the roam-mode watchlist CRITICAL (tail_detector.py
lines 444-445). -/
def watchlistRoamMessage (p : DeviceProfile) (raw : RawObs) : String :=
  "WATCHLISTED device detected: " ++ p.display_name ++ " (" ++ raw.mac ++
    ") Signal: " ++ pyShow raw.signal ++ " dBm"

/-- Message of the roam-mode approach WARNING (tail_detector.py
lines 454-455). -/
def approachMessage (p : DeviceProfile) (raw : RawObs) : String :=
  "Device approaching: " ++ p.display_name ++ " (" ++ raw.mac ++
    ") Signal: " ++ pyShow raw.signal ++ " dBm ↑"

/-- Per-observation body of `run_roam_mode`'s `_scan` (tail_detector.py
lines 433-458): update under "ROAM", recompute score/trend, bump
`roam_encounters` for never-home devices, fire the watchlist CRITICAL for a
watchlisted profile, the approach WARNING on a rising close signal
(`raw.get("signal") or -100` — a falsy `0`/`None` reading becomes -100), and
run the cross-context check for devices that have been seen at home.
(The `poi_macs` table bookkeeping is presentation and not modelled.) -/
def roamProfile (env : Env) (p0 : DeviceProfile) (raw : RawObs) :
    DeviceProfile :=
  let p1 := updateProfileP env p0 raw "ROAM"
  let p3 := { p1 with
    encounter_score := computeScore env p1
    signal_trend := calculate_signal_trend p1.signal_history }
  if p3.modes_seen_in.contains "HOME" = false then
    { p3 with roam_encounters := p3.roam_encounters + 1 }
  else p3

/-- `raw.get("signal") or -100` (tail_detector.py line 452): a missing or
falsy (`None`/`0`) reading becomes -100. -/
def roamSignalOr (raw : RawObs) : Int :=
  match raw.signal with
  | some v => if v = 0 then -100 else v
  | none => -100

/-- Per-observation body of `run_roam_mode` continued: the watchlist
CRITICAL for a watchlisted profile, the approach WARNING on a rising close
signal, then the cross-context check for devices that have been seen at
home. -/
def roamObsP (env : Env) (cfg : Config) (p0 : DeviceProfile)
    (raw : RawObs) : DeviceProfile × List Emitted :=
  let p4 := roamProfile env p0 raw
  let watchAlerts :=
    if p4.is_watchlisted then
      [⟨Site.watchlist_hit, Level.CRITICAL, watchlistRoamMessage p4 raw, env.now⟩]
    else []
  let approachAlerts :=
    if p4.signal_trend = "approaching" ∧
        cfg.signal_approaching_threshold < roamSignalOr raw then
      [⟨Site.approaching_device, Level.WARNING, approachMessage p4 raw, env.now⟩]
    else []
  let pc :=
    if p4.modes_seen_in.contains "HOME" then checkCrossMode env p4 "ROAM"
    else (p4, [])
  (pc.1, watchAlerts ++ approachAlerts ++ pc.2)

/-- `run_roam_mode`'s per-observation processing over the registry. -/
def roamObs (env : Env) (cfg : Config) (ds : List (String × DeviceProfile))
    (raw : RawObs) : List (String × DeviceProfile) × List Emitted :=
  let (p', as) := roamObsP env cfg (getOrCreate env ds raw) raw
  (setKey ds raw.mac p', as)

/-- Message of the doorbell arrival INFO (tail_detector.py line 519). -/
def arrivalMessage (p : DeviceProfile) (mac : String) : String :=
  "ARRIVAL: " ++ p.label ++ " (" ++ mac ++ ") is here"

/-- Message of the doorbell watchlist CRITICAL (tail_detector.py
lines 526-527). -/
def watchlistDoorbellMessage (mac manuf : String) (signal : Option Int) :
    String :=
  "WATCHLISTED device arrived: " ++ mac ++ " (" ++ manuf ++ ") Signal:" ++
    pyShow signal ++ " dBm"

/-- Message of the doorbell unknown-device streak alert (tail_detector.py
lines 535-536). -/
def unknownStreakMessage (mac manuf : String) (signal : Option Int)
    (n : ℕ) : String :=
  "UNKNOWN device: " ++ mac ++ " (" ++ manuf ++ ") Signal:" ++ pyShow signal ++
    " dBm — streak:" ++ toString n

/-- The mutable doorbell-cycle state: the shared registry, the
`unknown_streak` counters and the linger bookkeeping. -/
structure DoorbellState where
  devices : List (String × DeviceProfile)
  streak : List (String × ℕ)
  linger : LingerState
deriving DecidableEq, Repr

/-- Per-observation body of `run_doorbell_mode`'s cycle (tail_detector.py
lines 506-540): rows whose (truthy) last-seen is older than three scan
intervals are skipped; otherwise the device is counted present, the profile
updated under "DOORBELL" and rescored, arrival handling runs only for a
device absent from the previous cycle's set (labeled → INFO arrival;
unlabeled → streak bump, then watchlist CRITICAL or streak INFO/WARNING),
and the linger check runs for unlabeled devices.  The returned `Bool` is
membership in `current_macs`. -/
def doorbellStale (env : Env) (cfg : Config) (raw : RawObs) : Bool :=
  match raw.last_time with
  | some lt =>
      if lt = 0 then false
      else decide (cfg.doorbell_scan_interval * 3 < env.now - lt)
  | none => false

/-- See `doorbellObs` below; the age filter `doorbellStale` embeds
tail_detector.py lines 508-511 (`if raw.get("last_time"): ... continue`). -/
def doorbellObs (env : Env) (cfg : Config) (prevPresent : List String)
    (st : DoorbellState) (raw : RawObs) :
    DoorbellState × Bool × List Emitted :=
  if doorbellStale env cfg raw then (st, false, [])
  else
    let mac := raw.mac
    let p1 := updateProfileP env (getOrCreate env st.devices raw) raw "DOORBELL"
    let p2 := { p1 with encounter_score := computeScore env p1 }
    let ds2 := setKey st.devices mac p2
    let sa :=
      if prevPresent.contains mac = false then
        if p2.label ≠ "" then
          (st.streak, [⟨Site.arrival, Level.INFO, arrivalMessage p2 mac, env.now⟩])
        else
          let n := (st.streak.lookup mac).getD 0 + 1
          let streak1 := setKey st.streak mac n
          if p2.is_watchlisted then
            (streak1,
             [⟨Site.watchlist_hit, Level.CRITICAL,
               watchlistDoorbellMessage mac p2.manufacturer raw.signal, env.now⟩])
          else
            (streak1,
             [⟨Site.unknown_streak,
               (if 3 ≤ n then Level.WARNING else Level.INFO),
               unknownStreakMessage mac p2.manufacturer raw.signal n, env.now⟩])
      else (st.streak, [])
    let lc :=
      if p2.label = "" then
        checkLinger env.now cfg.unknown_ssid_linger_minutes false mac p2.ssids
          raw.signal st.linger
      else (st.linger, [])
    (⟨ds2, sa.1, lc.1⟩, true, sa.2 ++ lc.2)

/-- Departure handling of the doorbell cycle (tail_detector.py lines
542-548), for one address present previously but absent from the current
scan: fire the INFO, drop its unknown-streak counter and clear both pieces
of linger state. -/
def doorbellDeparture (env : Env) (st : DoorbellState) (mac : String) :
    DoorbellState × List Emitted :=
  let name := match st.devices.lookup mac with
              | some p => if p.label ≠ "" then p.label else mac
              | none => mac
  (⟨st.devices, eraseKey st.streak mac,
    ⟨eraseKey st.linger.firstSeen mac,
     st.linger.alerted.filter (fun x => !(x == mac))⟩⟩,
   [⟨Site.departure, Level.INFO, "DEPARTURE: " ++ name ++ " left", env.now⟩])

/-- Message of the watchlist-mode CRITICAL (tail_detector.py lines
582-583). -/
def watchlistModeMessage (p : DeviceProfile) (raw : RawObs) : String :=
  "WATCHLISTED: " ++ p.display_name ++ " (" ++ p.mac ++ ") Signal:" ++
    pyShow raw.signal ++ " dBm  Last:" ++
    (if p.last_seen = "" then "?" else p.last_seen.take 19)

/-- The watchlist built in `run_watchlist_mode` (tail_detector.py lines
569-570): profiles flagged `is_watchlisted` or grouped "watchlist". -/
def watchMacs (ds : List (String × DeviceProfile)) : List String :=
  (ds.filter (fun kv => kv.2.is_watchlisted || kv.2.group == "watchlist")).map
    (fun kv => kv.1)

/-- Per-row body of `run_watchlist_mode`'s scan (tail_detector.py lines
578-587): every row whose address is on the watchlist fires a CRITICAL, one
per row, with no deduplication. -/
def watchlistModeObs (env : Env) (ds : List (String × DeviceProfile))
    (raw : RawObs) : List Emitted :=
  if (watchMacs ds).contains raw.mac then
    match ds.lookup raw.mac with
    | some p => [⟨Site.watchlist_hit, Level.CRITICAL,
                  watchlistModeMessage p raw, env.now⟩]
    | none => []
  else []

/-- `_save_whitelist` (tail_detector.py lines 185-191): the registry dump
either succeeds silently or — on any exception — fires one WARNING (the
exception text of the source's message is elided) and returns normally; the
in-memory registry is not touched on either path. -/
def saveWhitelistAlerts (env : Env) (saveOk : Bool) : List Emitted :=
  if saveOk then []
  else [⟨Site.persistence, Level.WARNING, "Could not save whitelist", env.now⟩]

/-- One `_scan()` pass of `run_roam_mode` (tail_detector.py lines 426-465)
over an already-fetched batch of rows, ending with the `_save_whitelist()`
attempt (the table printing is presentation and not modelled). -/
def roamScan (env : Env) (cfg : Config) (saveOk : Bool)
    (ds : List (String × DeviceProfile)) (raws : List RawObs) :
    List (String × DeviceProfile) × List Emitted :=
  let step := raws.foldl
    (fun (acc : List (String × DeviceProfile) × List Emitted) raw =>
      let (ds1, as) := roamObs env cfg acc.1 raw
      (ds1, acc.2 ++ as))
    (ds, [])
  (step.1, step.2 ++ saveWhitelistAlerts env saveOk)

/-- `_update_profile` touches neither the label, the watchlist flag, the
group, nor the sticky cross-context flag of a profile. -/
theorem updateProfileP_preserves (env : Env) (p : DeviceProfile)
    (raw : RawObs) (mode : String) :
    (updateProfileP env p raw mode).label = p.label ∧
    (updateProfileP env p raw mode).is_watchlisted = p.is_watchlisted ∧
    (updateProfileP env p raw mode).cross_mode_detected = p.cross_mode_detected ∧
    (updateProfileP env p raw mode).group = p.group :=
  ⟨rfl, rfl, rfl, rfl⟩

/-- The context-tag set after `_update_profile`: the old tags, plus the
current (non-empty) mode tag. -/
theorem updateProfileP_mem_modes (env : Env) (p : DeviceProfile)
    (raw : RawObs) (mode : String) (x : String) :
    x ∈ (updateProfileP env p raw mode).modes_seen_in ↔
      (x ∈ p.modes_seen_in ∨ (x = mode ∧ mode ≠ "")) := by
  show x ∈ (if mode ≠ "" ∧ p.modes_seen_in.contains mode = false then
      p.modes_seen_in ++ [mode] else p.modes_seen_in) ↔ _
  split
  · rename_i hcond
    simp only [List.mem_append, List.mem_singleton]
    constructor
    · rintro (hx | hx)
      · exact Or.inl hx
      · exact Or.inr ⟨hx, hcond.1⟩
    · rintro (hx | hx)
      · exact Or.inl hx
      · exact Or.inr hx.1
  · rename_i hcond
    constructor
    · exact Or.inl
    · rintro (hx | ⟨hxm, hmne⟩)
      · exact hx
      · subst hxm
        by_cases hc : x ∈ p.modes_seen_in
        · exact hc
        · exact absurd ⟨hmne, by simpa using hc⟩ hcond

/-- Scoring and counter bookkeeping does not touch identity fields: the roam
per-observation profile keeps the label, watchlist flag and sticky flag of
the input profile. -/
theorem roamProfile_preserves (env : Env) (p0 : DeviceProfile) (raw : RawObs) :
    (roamProfile env p0 raw).label = p0.label ∧
    (roamProfile env p0 raw).is_watchlisted = p0.is_watchlisted ∧
    (roamProfile env p0 raw).cross_mode_detected = p0.cross_mode_detected := by
  simp only [roamProfile]
  split <;>
    exact ⟨(updateProfileP_preserves env p0 raw "ROAM").1,
           (updateProfileP_preserves env p0 raw "ROAM").2.1,
           (updateProfileP_preserves env p0 raw "ROAM").2.2.1⟩

/-- The roam per-observation profile carries exactly the context tags of the
underlying `_update_profile` result. -/
theorem roamProfile_modes (env : Env) (p0 : DeviceProfile) (raw : RawObs) :
    (roamProfile env p0 raw).modes_seen_in =
      (updateProfileP env p0 raw "ROAM").modes_seen_in := by
  simp only [roamProfile]
  split <;> rfl

/-- As `roamProfile_preserves`, for the home per-observation profile. -/
theorem homeProfile_preserves (env : Env) (p0 : DeviceProfile) (raw : RawObs) :
    (homeProfile env p0 raw).label = p0.label ∧
    (homeProfile env p0 raw).is_watchlisted = p0.is_watchlisted ∧
    (homeProfile env p0 raw).cross_mode_detected = p0.cross_mode_detected :=
  ⟨(updateProfileP_preserves env p0 raw "HOME").1,
   (updateProfileP_preserves env p0 raw "HOME").2.1,
   (updateProfileP_preserves env p0 raw "HOME").2.2.1⟩

/-- The home per-observation profile carries exactly the context tags of the
underlying `_update_profile` result. -/
theorem homeProfile_modes (env : Env) (p0 : DeviceProfile) (raw : RawObs) :
    (homeProfile env p0 raw).modes_seen_in =
      (updateProfileP env p0 raw "HOME").modes_seen_in := rfl

/-- The branch behaviour of `_check_cross_mode`, stated over an arbitrary
opposite tag: the flag afterwards, the untouched fields, and how many alerts
fire. -/
theorem checkCrossMode_branch (env : Env) (p : DeviceProfile) (other : String) :
    (if p.modes_seen_in.contains other = true ∧ p.cross_mode_detected = false
     then
      (({ p with cross_mode_detected := true } : DeviceProfile),
       ([⟨Site.cross_context, Level.CRITICAL, crossModeMessage p, env.now⟩] :
         List Emitted))
     else (p, [])).1.cross_mode_detected =
      (p.cross_mode_detected || p.modes_seen_in.contains other) := by
  split
  · rename_i hc
    rw [hc.1, Bool.or_true]
  · rename_i hc
    by_cases hf : p.cross_mode_detected = true
    · rw [hf, Bool.true_or]
    · have hff : p.cross_mode_detected = false := by
        simpa using hf
      have hnc : p.modes_seen_in.contains other = false := by
        rcases Bool.eq_false_or_eq_true (p.modes_seen_in.contains other)
          with h | h
        · exact absurd ⟨h, hff⟩ hc
        · exact h
      rw [hnc, Bool.or_false]

/-- The sticky flag after `_check_cross_mode`: set exactly when it already
was, or the opposite context tag is present. -/
theorem checkCrossMode_flag (env : Env) (p : DeviceProfile) (m : String) :
    (checkCrossMode env p m).1.cross_mode_detected =
      (p.cross_mode_detected ||
        p.modes_seen_in.contains (if m = "HOME" then "ROAM" else "HOME")) :=
  checkCrossMode_branch env p (if m = "HOME" then "ROAM" else "HOME")

/-- `_check_cross_mode` never changes the tag set, label or watchlist flag. -/
theorem checkCrossMode_keeps (env : Env) (p : DeviceProfile) (m : String) :
    (checkCrossMode env p m).1.modes_seen_in = p.modes_seen_in ∧
    (checkCrossMode env p m).1.label = p.label ∧
    (checkCrossMode env p m).1.is_watchlisted = p.is_watchlisted := by
  have h : ∀ other : String,
      (if p.modes_seen_in.contains other = true ∧ p.cross_mode_detected = false
       then
        (({ p with cross_mode_detected := true } : DeviceProfile),
         ([⟨Site.cross_context, Level.CRITICAL, crossModeMessage p, env.now⟩] :
           List Emitted))
       else (p, [])).1.modes_seen_in = p.modes_seen_in ∧
      (if p.modes_seen_in.contains other = true ∧ p.cross_mode_detected = false
       then
        (({ p with cross_mode_detected := true } : DeviceProfile),
         ([⟨Site.cross_context, Level.CRITICAL, crossModeMessage p, env.now⟩] :
           List Emitted))
       else (p, [])).1.label = p.label ∧
      (if p.modes_seen_in.contains other = true ∧ p.cross_mode_detected = false
       then
        (({ p with cross_mode_detected := true } : DeviceProfile),
         ([⟨Site.cross_context, Level.CRITICAL, crossModeMessage p, env.now⟩] :
           List Emitted))
       else (p, [])).1.is_watchlisted = p.is_watchlisted := by
    intro other
    split <;> exact ⟨rfl, rfl, rfl⟩
  exact h (if m = "HOME" then "ROAM" else "HOME")

/-- `_check_cross_mode` fires exactly one alert when the flag is clear and
the opposite tag is present, and none otherwise. -/
theorem checkCrossMode_count (env : Env) (p : DeviceProfile) (m : String) :
    ((checkCrossMode env p m).2).length =
      (if p.cross_mode_detected = false ∧
          p.modes_seen_in.contains (if m = "HOME" then "ROAM" else "HOME") = true
       then 1 else 0) := by
  have h : ∀ other : String,
      ((if p.modes_seen_in.contains other = true ∧ p.cross_mode_detected = false
        then
         (({ p with cross_mode_detected := true } : DeviceProfile),
          ([⟨Site.cross_context, Level.CRITICAL, crossModeMessage p, env.now⟩] :
            List Emitted))
        else (p, [])).2).length =
        (if p.cross_mode_detected = false ∧
            p.modes_seen_in.contains other = true then 1 else 0) := by
    intro other
    split
    · rename_i hc
      rw [if_pos ⟨hc.2, hc.1⟩]
      rfl
    · rename_i hc
      rw [if_neg (fun hcc => hc ⟨hcc.2, hcc.1⟩)]
      rfl
  exact h (if m = "HOME" then "ROAM" else "HOME")

/-- Every alert `_check_cross_mode` emits is the CRITICAL cross-context
alert, stamped with the current clock. -/
theorem checkCrossMode_alerts (env : Env) (p : DeviceProfile) (m : String) :
    ∀ e ∈ (checkCrossMode env p m).2,
      e.site = Site.cross_context ∧ e.level = Level.CRITICAL ∧
      e.timestamp = env.now := by
  intro e he
  simp only [checkCrossMode] at he
  split at he <;> split at he <;> simp at he
  all_goals subst he
  all_goals exact ⟨rfl, rfl, rfl⟩

/-- Every alert `_check_linger` emits is the linger WARNING, stamped with the
current clock. -/
theorem checkLinger_alerts (now lingerMin : ℚ) (known : Bool) (mac : String)
    (ssids : List String) (signal : Option Int) (st : LingerState) :
    ∀ e ∈ (checkLinger now lingerMin known mac ssids signal st).2,
      e.site = Site.linger ∧ e.level = Level.WARNING ∧ e.timestamp = now := by
  intro e he
  unfold checkLinger at he
  split at he
  · simp at he
  · split at he
    · simp at he
    · split at he
      · simp only [List.mem_singleton] at he
        subst he
        exact ⟨rfl, rfl, rfl⟩
      · simp at he

/-- Cross-context alerts are never watchlist hits. -/
theorem checkCrossMode_watch_filter (env : Env) (p : DeviceProfile)
    (m : String) :
    (checkCrossMode env p m).2.filter
      (fun e => e.site == Site.watchlist_hit) = [] := by
  rw [List.filter_eq_nil_iff]
  intro e he
  have h := (checkCrossMode_alerts env p m e he).1
  simp [h]

/-- Linger alerts are never watchlist hits. -/
theorem checkLinger_watch_filter (now lingerMin : ℚ) (known : Bool)
    (mac : String) (ssids : List String) (signal : Option Int)
    (st : LingerState) :
    (checkLinger now lingerMin known mac ssids signal st).2.filter
      (fun e => e.site == Site.watchlist_hit) = [] := by
  rw [List.filter_eq_nil_iff]
  intro e he
  have h := (checkLinger_alerts now lingerMin known mac ssids signal st e he).1
  simp [h]

/-- Linger alerts are never CRITICAL. -/
theorem checkLinger_critical_filter (now lingerMin : ℚ) (known : Bool)
    (mac : String) (ssids : List String) (signal : Option Int)
    (st : LingerState) :
    (checkLinger now lingerMin known mac ssids signal st).2.filter
      (fun e => e.level == Level.CRITICAL) = [] := by
  rw [List.filter_eq_nil_iff]
  intro e he
  have h := (checkLinger_alerts now lingerMin known mac ssids signal st e he).2.1
  simp [h]

/-- A successful association-list lookup exhibits a member pair. -/
theorem lookup_mem {α : Type} (l : List (String × α)) (k : String) (v : α)
    (h : l.lookup k = some v) : (k, v) ∈ l := by
  induction l with
  | nil => simp [List.lookup] at h
  | cons hd tl ih =>
    rw [List.lookup] at h
    split at h
    · rename_i hk
      cases h
      have : k = hd.1 := by simpa using hk
      subst this
      exact List.mem_cons_self _ _
    · exact List.mem_cons_of_mem _ (ih h)

/-- In ROAM mode, a watchlisted profile's observation emits exactly one
watchlist alert: the CRITICAL hit carrying the row's signal reading and the
current clock. -/
theorem roamObsP_watch_alert (env : Env) (cfg : Config) (p0 : DeviceProfile)
    (raw : RawObs) (hw : p0.is_watchlisted = true) :
    (roamObsP env cfg p0 raw).2.filter
        (fun e => e.site == Site.watchlist_hit) =
      [⟨Site.watchlist_hit, Level.CRITICAL,
        watchlistRoamMessage (roamProfile env p0 raw) raw, env.now⟩] := by
  have hq : (roamProfile env p0 raw).is_watchlisted = true :=
    (roamProfile_preserves env p0 raw).2.1.trans hw
  simp only [roamObsP, List.filter_append]
  rw [if_pos hq]
  have h2 : (if (roamProfile env p0 raw).signal_trend = "approaching" ∧
      cfg.signal_approaching_threshold < roamSignalOr raw then
      [(⟨Site.approaching_device, Level.WARNING,
        approachMessage (roamProfile env p0 raw) raw, env.now⟩ : Emitted)]
     else []).filter (fun e => e.site == Site.watchlist_hit) = [] := by
    split <;> rfl
  have h3 : ((if (roamProfile env p0 raw).modes_seen_in.contains "HOME" then
      checkCrossMode env (roamProfile env p0 raw) "ROAM"
     else (roamProfile env p0 raw, ([] : List Emitted))).2).filter
      (fun e => e.site == Site.watchlist_hit) = [] := by
    split
    · exact checkCrossMode_watch_filter env (roamProfile env p0 raw) "ROAM"
    · rfl
  rw [h2, h3]
  rfl

/-- HOME mode runs no watchlist check: its per-observation processing never
emits a watchlist-hit alert, whatever the profile. -/
theorem homeObsP_no_watch_alert (env : Env) (cfg : Config)
    (p0 : DeviceProfile) (ling : LingerState) (raw : RawObs) :
    (homeObsP env cfg p0 ling raw).2.2.filter
      (fun e => e.site == Site.watchlist_hit) = [] := by
  simp only [homeObsP, List.filter_append]
  rw [checkCrossMode_watch_filter, checkLinger_watch_filter]
  rfl

/-- Every CRITICAL alert of HOME-mode per-observation processing is a
cross-context alert: the only other call site (linger) fires WARNING. -/
theorem homeObsP_critical_only_cross (env : Env) (cfg : Config)
    (p0 : DeviceProfile) (ling : LingerState) (raw : RawObs) :
    ∀ e ∈ (homeObsP env cfg p0 ling raw).2.2,
      e.level = Level.CRITICAL → e.site = Site.cross_context := by
  intro e he hl
  simp only [homeObsP] at he
  rw [List.mem_append] at he
  rcases he with he | he
  · exact (checkCrossMode_alerts env (homeProfile env p0 raw) "HOME" e he).1
  · have := (checkLinger_alerts env.now cfg.unknown_ssid_linger_minutes _ _ _ _
      _ e he).2.1
    rw [hl] at this
    cases this

/-- In WATCHLIST mode every row matching a watchlisted profile fires the
CRITICAL hit carrying the row's signal and the clock. -/
theorem watchlistModeObs_alert (env : Env)
    (ds : List (String × DeviceProfile)) (raw : RawObs) (p : DeviceProfile)
    (hlk : ds.lookup raw.mac = some p)
    (hw : (p.is_watchlisted || p.group == "watchlist") = true) :
    watchlistModeObs env ds raw =
      [⟨Site.watchlist_hit, Level.CRITICAL, watchlistModeMessage p raw,
        env.now⟩] := by
  have hmem : (raw.mac, p) ∈ ds := lookup_mem ds raw.mac p hlk
  have hcontains : (watchMacs ds).contains raw.mac = true := by
    have : raw.mac ∈ watchMacs ds := by
      unfold watchMacs
      rw [List.mem_map]
      exact ⟨(raw.mac, p), List.mem_filter.mpr ⟨hmem, hw⟩, rfl⟩
    simpa using this
  unfold watchlistModeObs
  rw [if_pos hcontains, hlk]

/-- In DOORBELL mode, a fresh (not stale) arrival of an unlabeled
watchlisted device fires exactly one watchlist alert: the CRITICAL hit. -/
theorem doorbellObs_watch_alert (env : Env) (cfg : Config)
    (prevPresent : List String) (st : DoorbellState) (raw : RawObs)
    (p : DeviceProfile) (hlk : st.devices.lookup raw.mac = some p)
    (hlabel : p.label = "") (hw : p.is_watchlisted = true)
    (harr : prevPresent.contains raw.mac = false)
    (hstale : doorbellStale env cfg raw = false) :
    (doorbellObs env cfg prevPresent st raw).2.2.filter
        (fun e => e.site == Site.watchlist_hit) =
      [⟨Site.watchlist_hit, Level.CRITICAL,
        watchlistDoorbellMessage raw.mac
          (updateProfileP env p raw "DOORBELL").manufacturer raw.signal,
        env.now⟩] := by
  have hget : getOrCreate env st.devices raw = p := by
    unfold getOrCreate
    rw [hlk]
  have hlabel1 : (updateProfileP env p raw "DOORBELL").label = "" :=
    (updateProfileP_preserves env p raw "DOORBELL").1.trans hlabel
  have hw1 : (updateProfileP env p raw "DOORBELL").is_watchlisted = true :=
    (updateProfileP_preserves env p raw "DOORBELL").2.1.trans hw
  simp only [doorbellObs, hstale, Bool.false_eq_true, if_false, hget,
    List.filter_append]
  rw [if_pos harr, if_neg (by simp [hlabel1]), if_pos hw1, if_pos hlabel1,
    checkLinger_watch_filter]
  rfl

/-- In DOORBELL mode a device already present in the previous cycle's set
never fires a watchlist alert again, watchlisted or not: the arrival block is
skipped entirely. -/
theorem doorbellObs_present_no_watch (env : Env) (cfg : Config)
    (prevPresent : List String) (st : DoorbellState) (raw : RawObs)
    (hpres : prevPresent.contains raw.mac = true) :
    (doorbellObs env cfg prevPresent st raw).2.2.filter
      (fun e => e.site == Site.watchlist_hit) = [] := by
  by_cases hst : doorbellStale env cfg raw = true
  · simp [doorbellObs, hst]
  · have hst' : doorbellStale env cfg raw = false := by simpa using hst
    simp only [doorbellObs, hst', Bool.false_eq_true, if_false,
      List.filter_append]
    rw [if_neg (by rw [hpres]; exact (by decide))]
    have h3 : ((if (updateProfileP env (getOrCreate env st.devices raw) raw
        "DOORBELL").label = "" then
        checkLinger env.now cfg.unknown_ssid_linger_minutes false raw.mac
          (updateProfileP env (getOrCreate env st.devices raw) raw
            "DOORBELL").ssids raw.signal st.linger
       else (st.linger, ([] : List Emitted))).2).filter
        (fun e => e.site == Site.watchlist_hit) = [] := by
      split
      · exact checkLinger_watch_filter _ _ _ _ _ _ _
      · rfl
    rw [h3]
    rfl

/-- In DOORBELL mode a labeled device never fires a CRITICAL alert: its
arrival is an INFO and it is excluded from the linger check. -/
theorem doorbellObs_labeled_no_critical (env : Env) (cfg : Config)
    (prevPresent : List String) (st : DoorbellState) (raw : RawObs)
    (p : DeviceProfile) (hlk : st.devices.lookup raw.mac = some p)
    (hlabel : p.label ≠ "") :
    (doorbellObs env cfg prevPresent st raw).2.2.filter
      (fun e => e.level == Level.CRITICAL) = [] := by
  have hget : getOrCreate env st.devices raw = p := by
    unfold getOrCreate
    rw [hlk]
  have hlabel1 : (updateProfileP env p raw "DOORBELL").label ≠ "" := by
    rw [(updateProfileP_preserves env p raw "DOORBELL").1]
    exact hlabel
  by_cases hst : doorbellStale env cfg raw = true
  · simp [doorbellObs, hst]
  · have hst' : doorbellStale env cfg raw = false := by simpa using hst
    simp only [doorbellObs, hst', Bool.false_eq_true, if_false, hget,
      List.filter_append]
    by_cases harr : prevPresent.contains raw.mac = false
    · rw [if_pos harr, if_pos hlabel1, if_neg hlabel1]
      rfl
    · rw [if_neg harr, if_neg hlabel1]
      rfl

/-- Concrete environment for counterexamples and witnesses: clock at 0, ISO
formatting abstracted to the empty string, nothing parses back. -/
def envC : Env := { now := 0, isoOf := fun _ => "", parseIso := fun _ => none }

/-- Concrete configuration with the source's `.get` defaults. -/
def cfgC : Config := {}

/-- Concrete device address for counterexamples and witnesses. -/
def macC : String := "aa:bb:cc:dd:ee:01"

/-- A watchlisted, unlabeled profile previously seen at home. -/
def watchedProfileC : DeviceProfile :=
  { mac := macC, is_watchlisted := true, modes_seen_in := ["HOME"] }

/-- A labeled profile. -/
def labeledProfileC : DeviceProfile := { mac := macC, label := "courier" }

/-- A watchlisted, unlabeled, never-categorised profile. -/
def unlabeledWatchedC : DeviceProfile := { mac := macC, is_watchlisted := true }

/-- A minimal normalized row for the concrete address. -/
def rawC : RawObs := { mac := macC }

/-- C2 counterexample: in HOME mode an observation of a watchlisted profile
fires no alert at all — in particular no CRITICAL watchlist alert — because
`run_home_mode`'s loop body has no watchlist check.  This refutes "in every
scanning mode, every observation matching a watchlisted profile fires a
CRITICAL alert". -/
theorem home_mode_watchlisted_sighting_fires_nothing :
    watchedProfileC.is_watchlisted = true ∧
    (homeObs envC cfgC [(macC, watchedProfileC)] ⟨[], []⟩ rawC).2.2 = [] := by
  constructor
  · rfl
  · rfl

/-- C2 (amended): watchlist sightings alert per observation, without
deduplication, in ROAM mode and in WATCHLIST mode — a CRITICAL hit carrying
the row's signal reading and the current clock.  HOME mode performs no
watchlist check at all.  DOORBELL mode fires the watchlist CRITICAL only on
the arrival of an unlabeled watchlisted device: a device still present from
the previous cycle does not re-alert, and a labeled device never fires
CRITICAL in this mode. -/
theorem watchlist_alert_per_sighting_by_mode :
    (∀ (env : Env) (cfg : Config) (ds : List (String × DeviceProfile))
        (raw : RawObs) (p : DeviceProfile),
        ds.lookup raw.mac = some p → p.is_watchlisted = true →
        (roamObs env cfg ds raw).2.filter
            (fun e => e.site == Site.watchlist_hit) =
          [⟨Site.watchlist_hit, Level.CRITICAL,
            watchlistRoamMessage (roamProfile env p raw) raw, env.now⟩]) ∧
    (∀ (env : Env) (ds : List (String × DeviceProfile)) (raw : RawObs)
        (p : DeviceProfile),
        ds.lookup raw.mac = some p →
        (p.is_watchlisted || p.group == "watchlist") = true →
        watchlistModeObs env ds raw =
          [⟨Site.watchlist_hit, Level.CRITICAL, watchlistModeMessage p raw,
            env.now⟩]) ∧
    (∀ (env : Env) (cfg : Config) (ds : List (String × DeviceProfile))
        (ling : LingerState) (raw : RawObs),
        (homeObs env cfg ds ling raw).2.2.filter
          (fun e => e.site == Site.watchlist_hit) = []) ∧
    (∀ (env : Env) (cfg : Config) (prevPresent : List String)
        (st : DoorbellState) (raw : RawObs) (p : DeviceProfile),
        st.devices.lookup raw.mac = some p → p.label = "" →
        p.is_watchlisted = true → prevPresent.contains raw.mac = false →
        doorbellStale env cfg raw = false →
        (doorbellObs env cfg prevPresent st raw).2.2.filter
            (fun e => e.site == Site.watchlist_hit) =
          [⟨Site.watchlist_hit, Level.CRITICAL,
            watchlistDoorbellMessage raw.mac
              (updateProfileP env p raw "DOORBELL").manufacturer raw.signal,
            env.now⟩]) ∧
    (∀ (env : Env) (cfg : Config) (prevPresent : List String)
        (st : DoorbellState) (raw : RawObs),
        prevPresent.contains raw.mac = true →
        (doorbellObs env cfg prevPresent st raw).2.2.filter
          (fun e => e.site == Site.watchlist_hit) = []) ∧
    (∀ (env : Env) (cfg : Config) (prevPresent : List String)
        (st : DoorbellState) (raw : RawObs) (p : DeviceProfile),
        st.devices.lookup raw.mac = some p → p.label ≠ "" →
        (doorbellObs env cfg prevPresent st raw).2.2.filter
          (fun e => e.level == Level.CRITICAL) = []) := by
  refine ⟨?_, ?_, ?_, ?_, ?_, ?_⟩
  · intro env cfg ds raw p hlk hw
    have hget : getOrCreate env ds raw = p := by
      unfold getOrCreate
      rw [hlk]
    simp only [roamObs, hget]
    exact roamObsP_watch_alert env cfg p raw hw
  · intro env ds raw p hlk hw
    exact watchlistModeObs_alert env ds raw p hlk hw
  · intro env cfg ds ling raw
    exact homeObsP_no_watch_alert env cfg (getOrCreate env ds raw) ling raw
  · intro env cfg prevPresent st raw p hlk hlabel hw harr hstale
    exact doorbellObs_watch_alert env cfg prevPresent st raw p hlk hlabel hw
      harr hstale
  · intro env cfg prevPresent st raw hpres
    exact doorbellObs_present_no_watch env cfg prevPresent st raw hpres
  · intro env cfg prevPresent st raw p hlk hlabel
    exact doorbellObs_labeled_no_critical env cfg prevPresent st raw p hlk
      hlabel

/-- Witness: `watchlist_alert_per_sighting_by_mode` evaluated on concrete
registries and rows, with every hypothesis discharged. -/
theorem watchlist_alert_per_sighting_by_mode_witness :
    ((List.lookup rawC.mac [(macC, watchedProfileC)] = some watchedProfileC ∧
      watchedProfileC.is_watchlisted = true) ∧
      (roamObs envC cfgC [(macC, watchedProfileC)] rawC).2.filter
          (fun e => e.site == Site.watchlist_hit) =
        [⟨Site.watchlist_hit, Level.CRITICAL,
          watchlistRoamMessage (roamProfile envC watchedProfileC rawC) rawC,
          envC.now⟩]) ∧
    (watchlistModeObs envC [(macC, watchedProfileC)] rawC =
        [⟨Site.watchlist_hit, Level.CRITICAL,
          watchlistModeMessage watchedProfileC rawC, envC.now⟩]) ∧
    ((homeObs envC cfgC [(macC, watchedProfileC)] ⟨[], []⟩ rawC).2.2.filter
        (fun e => e.site == Site.watchlist_hit) = []) ∧
    ((doorbellObs envC cfgC [] ⟨[(macC, unlabeledWatchedC)], [], ⟨[], []⟩⟩
        rawC).2.2.filter (fun e => e.site == Site.watchlist_hit) =
      [⟨Site.watchlist_hit, Level.CRITICAL,
        watchlistDoorbellMessage rawC.mac
          (updateProfileP envC unlabeledWatchedC rawC "DOORBELL").manufacturer
          rawC.signal, envC.now⟩]) ∧
    ((doorbellObs envC cfgC [macC] ⟨[(macC, unlabeledWatchedC)], [], ⟨[], []⟩⟩
        rawC).2.2.filter (fun e => e.site == Site.watchlist_hit) = []) ∧
    ((doorbellObs envC cfgC [] ⟨[(macC, labeledProfileC)], [], ⟨[], []⟩⟩
        rawC).2.2.filter (fun e => e.level == Level.CRITICAL) = []) :=
  ⟨⟨⟨rfl, rfl⟩,
    watchlist_alert_per_sighting_by_mode.1 envC cfgC [(macC, watchedProfileC)]
      rawC watchedProfileC rfl rfl⟩,
   watchlist_alert_per_sighting_by_mode.2.1 envC [(macC, watchedProfileC)]
     rawC watchedProfileC rfl rfl,
   watchlist_alert_per_sighting_by_mode.2.2.1 envC cfgC
     [(macC, watchedProfileC)] ⟨[], []⟩ rawC,
   watchlist_alert_per_sighting_by_mode.2.2.2.1 envC cfgC []
     ⟨[(macC, unlabeledWatchedC)], [], ⟨[], []⟩⟩ rawC unlabeledWatchedC rfl
     rfl rfl rfl rfl,
   watchlist_alert_per_sighting_by_mode.2.2.2.2.1 envC cfgC [macC]
     ⟨[(macC, unlabeledWatchedC)], [], ⟨[], []⟩⟩ rawC (by decide),
   watchlist_alert_per_sighting_by_mode.2.2.2.2.2 envC cfgC []
     ⟨[(macC, labeledProfileC)], [], ⟨[], []⟩⟩ rawC labeledProfileC rfl
     (by decide)⟩

/-- The two mutually exclusive scan contexts of the cross-context detector
(the "stationary" and "roaming" tags of the specification). -/
inductive CtxMode where
  | home
  | roam
deriving DecidableEq, Repr

/-- Context tag written by an observation in the given mode. -/
def modeTag : CtxMode → String
  | CtxMode.home => "HOME"
  | CtxMode.roam => "ROAM"

/-- The opposite context tag, as computed in `_check_cross_mode`. -/
def otherTag : CtxMode → String
  | CtxMode.home => "ROAM"
  | CtxMode.roam => "HOME"

/-- One observation of a tracked profile, in HOME or ROAM mode, as applied by
the respective scan-loop body (the linger bookkeeping rides along for the
HOME body). -/
def ctxStep (env : Env) (cfg : Config) (st : DeviceProfile × LingerState)
    (s : CtxMode × RawObs) : (DeviceProfile × LingerState) × List Emitted :=
  match s.1 with
  | CtxMode.home =>
      let r := homeObsP env cfg st.1 st.2 s.2
      ((r.1, r.2.1), r.2.2)
  | CtxMode.roam =>
      let r := roamObsP env cfg st.1 s.2
      ((r.1, st.2), r.2)

/-- Number of cross-context alerts in an emitted batch. -/
def crossCount (l : List Emitted) : ℕ :=
  (l.filter (fun e => e.site == Site.cross_context)).length

/-- A profile's run through a sequence of HOME/ROAM observations, returning
the final state and the total number of cross-context alerts emitted. -/
def runCtx (env : Env) (cfg : Config) :
    DeviceProfile × LingerState → List (CtxMode × RawObs) →
    (DeviceProfile × LingerState) × ℕ
  | st, [] => (st, 0)
  | st, s :: rest =>
      let r := ctxStep env cfg st s
      let t := runCtx env cfg r.1 rest
      (t.1, crossCount r.2 + t.2)

/-- Cross-context alerts are all of `_check_cross_mode`'s output. -/
theorem checkCrossMode_cross_filter (env : Env) (p : DeviceProfile)
    (m : String) :
    (checkCrossMode env p m).2.filter (fun e => e.site == Site.cross_context) =
      (checkCrossMode env p m).2 := by
  rw [List.filter_eq_self]
  intro e he
  have h := (checkCrossMode_alerts env p m e he).1
  simp [h]

/-- Linger alerts are never cross-context alerts. -/
theorem checkLinger_cross_filter (now lingerMin : ℚ) (known : Bool)
    (mac : String) (ssids : List String) (signal : Option Int)
    (st : LingerState) :
    (checkLinger now lingerMin known mac ssids signal st).2.filter
      (fun e => e.site == Site.cross_context) = [] := by
  rw [List.filter_eq_nil_iff]
  intro e he
  have h := (checkLinger_alerts now lingerMin known mac ssids signal st e he).1
  simp [h]

/-- The sticky flag after one HOME/ROAM observation: set exactly when it
already was, or the opposite context tag is present after the profile
update. -/
theorem ctxStep_flag (env : Env) (cfg : Config)
    (st : DeviceProfile × LingerState) (m : CtxMode) (raw : RawObs) :
    (ctxStep env cfg st (m, raw)).1.1.cross_mode_detected =
      (st.1.cross_mode_detected ||
        (updateProfileP env st.1 raw (modeTag m)).modes_seen_in.contains
          (otherTag m)) := by
  cases m
  · show (checkCrossMode env (homeProfile env st.1 raw) "HOME").1.cross_mode_detected = _
    rw [checkCrossMode_flag]
    have hred : (if ("HOME" : String) = "HOME" then "ROAM" else "HOME") =
        "ROAM" := rfl
    rw [hred, (homeProfile_preserves env st.1 raw).2.2,
      homeProfile_modes env st.1 raw]
    rfl
  · show (if (roamProfile env st.1 raw).modes_seen_in.contains "HOME" = true
        then checkCrossMode env (roamProfile env st.1 raw) "ROAM"
        else (roamProfile env st.1 raw, [])).1.cross_mode_detected = _
    split
    · rename_i hc
      rw [checkCrossMode_flag]
      have hred : (if ("ROAM" : String) = "HOME" then "ROAM" else "HOME") =
          "HOME" := rfl
      rw [hred, (roamProfile_preserves env st.1 raw).2.2,
        roamProfile_modes env st.1 raw]
      rfl
    · rename_i hc
      have hcf : (roamProfile env st.1 raw).modes_seen_in.contains "HOME"
          = false := by
        simpa using hc
      rw [roamProfile_modes env st.1 raw] at hcf
      simp only [modeTag, otherTag]
      rw [(roamProfile_preserves env st.1 raw).2.2, hcf, Bool.or_false]

/-- The tag set after one HOME/ROAM observation is exactly the tag set of the
underlying `_update_profile` result. -/
theorem ctxStep_modes (env : Env) (cfg : Config)
    (st : DeviceProfile × LingerState) (m : CtxMode) (raw : RawObs) :
    (ctxStep env cfg st (m, raw)).1.1.modes_seen_in =
      (updateProfileP env st.1 raw (modeTag m)).modes_seen_in := by
  cases m
  · show (checkCrossMode env (homeProfile env st.1 raw) "HOME").1.modes_seen_in = _
    rw [(checkCrossMode_keeps env (homeProfile env st.1 raw) "HOME").1]
    exact homeProfile_modes env st.1 raw
  · show (if (roamProfile env st.1 raw).modes_seen_in.contains "HOME" = true
        then checkCrossMode env (roamProfile env st.1 raw) "ROAM"
        else (roamProfile env st.1 raw, [])).1.modes_seen_in = _
    split
    · rw [(checkCrossMode_keeps env (roamProfile env st.1 raw) "ROAM").1]
      exact roamProfile_modes env st.1 raw
    · exact roamProfile_modes env st.1 raw

/-- One HOME/ROAM observation emits exactly one cross-context alert when the
sticky flag is clear and the opposite tag is present after the update, and
none otherwise. -/
theorem ctxStep_count (env : Env) (cfg : Config)
    (st : DeviceProfile × LingerState) (m : CtxMode) (raw : RawObs) :
    crossCount (ctxStep env cfg st (m, raw)).2 =
      (if st.1.cross_mode_detected = false ∧
          (updateProfileP env st.1 raw (modeTag m)).modes_seen_in.contains
            (otherTag m) = true
       then 1 else 0) := by
  cases m
  · show crossCount ((checkCrossMode env (homeProfile env st.1 raw) "HOME").2
        ++ (checkLinger env.now cfg.unknown_ssid_linger_minutes _ _ _ _
              st.2).2) = _
    unfold crossCount
    rw [List.filter_append, checkCrossMode_cross_filter,
      checkLinger_cross_filter, List.append_nil]
    rw [checkCrossMode_count]
    have hred : (if ("HOME" : String) = "HOME" then "ROAM" else "HOME") =
        "ROAM" := rfl
    rw [hred, (homeProfile_preserves env st.1 raw).2.2,
      homeProfile_modes env st.1 raw]
    rfl
  · show crossCount
        ((if (roamProfile env st.1 raw).is_watchlisted = true then
            [⟨Site.watchlist_hit, Level.CRITICAL,
              watchlistRoamMessage (roamProfile env st.1 raw) raw, env.now⟩]
          else []) ++
         (if (roamProfile env st.1 raw).signal_trend = "approaching" ∧
            cfg.signal_approaching_threshold < roamSignalOr raw then
            [⟨Site.approaching_device, Level.WARNING,
              approachMessage (roamProfile env st.1 raw) raw, env.now⟩]
          else []) ++
         (if (roamProfile env st.1 raw).modes_seen_in.contains "HOME" = true
          then checkCrossMode env (roamProfile env st.1 raw) "ROAM"
          else (roamProfile env st.1 raw, [])).2) = _
    unfold crossCount
    rw [List.filter_append, List.filter_append]
    have h1 : ((if (roamProfile env st.1 raw).is_watchlisted = true then
        [(⟨Site.watchlist_hit, Level.CRITICAL,
           watchlistRoamMessage (roamProfile env st.1 raw) raw, env.now⟩ :
          Emitted)] else []).filter
          (fun e => e.site == Site.cross_context)) = [] := by
      split <;> rfl
    have h2 : ((if (roamProfile env st.1 raw).signal_trend = "approaching" ∧
        cfg.signal_approaching_threshold < roamSignalOr raw then
        [(⟨Site.approaching_device, Level.WARNING,
           approachMessage (roamProfile env st.1 raw) raw, env.now⟩ :
          Emitted)] else []).filter
          (fun e => e.site == Site.cross_context)) = [] := by
      split <;> rfl
    rw [h1, h2]
    have hred : (if ("ROAM" : String) = "HOME" then "ROAM" else "HOME") =
        "HOME" := rfl
    split
    · rename_i hc
      rw [checkCrossMode_cross_filter]
      have := checkCrossMode_count env (roamProfile env st.1 raw) "ROAM"
      rw [hred] at this
      rw [List.nil_append, List.nil_append, this,
        (roamProfile_preserves env st.1 raw).2.2,
        roamProfile_modes env st.1 raw]
      rfl
    · rename_i hc
      have hcf : (roamProfile env st.1 raw).modes_seen_in.contains "HOME"
          = false := by
        simpa using hc
      rw [roamProfile_modes env st.1 raw] at hcf
      rw [if_neg]
      · rfl
      · intro hcc
        simp only [modeTag, otherTag] at hcc
        rw [hcf] at hcc
        exact Bool.noConfusion hcc.2

/-- Once the sticky flag is set, a whole run of further HOME/ROAM
observations emits no cross-context alert and the flag stays set. -/
theorem runCtx_flag_true (env : Env) (cfg : Config)
    (st : DeviceProfile × LingerState) (tr : List (CtxMode × RawObs))
    (h : st.1.cross_mode_detected = true) :
    (runCtx env cfg st tr).2 = 0 ∧
    (runCtx env cfg st tr).1.1.cross_mode_detected = true := by
  induction tr generalizing st with
  | nil => exact ⟨rfl, h⟩
  | cons s rest ih =>
    obtain ⟨m, raw⟩ := s
    have hflag : (ctxStep env cfg st (m, raw)).1.1.cross_mode_detected =
        true := by
      rw [ctxStep_flag, h, Bool.true_or]
    have hcount : crossCount (ctxStep env cfg st (m, raw)).2 = 0 := by
      rw [ctxStep_count, if_neg]
      intro hcc
      rw [h] at hcc
      exact Bool.noConfusion hcc.1
    have hrest := ih (ctxStep env cfg st (m, raw)).1 hflag
    constructor
    · show crossCount (ctxStep env cfg st (m, raw)).2 +
        (runCtx env cfg (ctxStep env cfg st (m, raw)).1 rest).2 = 0
      rw [hcount, hrest.1]
    · show (runCtx env cfg (ctxStep env cfg st (m, raw)).1
        rest).1.1.cross_mode_detected = true
      exact hrest.2

/-- A profile whose sticky flag is clear emits at most one cross-context
alert over any run of HOME/ROAM observations; with the flag set it emits
none. -/
theorem runCtx_count_le (env : Env) (cfg : Config)
    (st : DeviceProfile × LingerState) (tr : List (CtxMode × RawObs)) :
    (runCtx env cfg st tr).2 ≤
      (if st.1.cross_mode_detected = true then 0 else 1) := by
  induction tr generalizing st with
  | nil => exact Nat.zero_le _
  | cons s rest ih =>
    obtain ⟨m, raw⟩ := s
    show crossCount (ctxStep env cfg st (m, raw)).2 +
      (runCtx env cfg (ctxStep env cfg st (m, raw)).1 rest).2 ≤ _
    by_cases h : st.1.cross_mode_detected = true
    · have hflag : (ctxStep env cfg st (m, raw)).1.1.cross_mode_detected =
          true := by
        rw [ctxStep_flag, h, Bool.true_or]
      have hcount : crossCount (ctxStep env cfg st (m, raw)).2 = 0 := by
        rw [ctxStep_count, if_neg]
        intro hcc
        rw [h] at hcc
        exact Bool.noConfusion hcc.1
      rw [hcount, (runCtx_flag_true env cfg _ rest hflag).1]
      exact Nat.zero_le _
    · have hf : st.1.cross_mode_detected = false := by
        simpa using h
      rw [if_neg h]
      by_cases hc : (updateProfileP env st.1 raw
          (modeTag m)).modes_seen_in.contains (otherTag m) = true
      · have h1 : crossCount (ctxStep env cfg st (m, raw)).2 = 1 := by
          rw [ctxStep_count, if_pos ⟨hf, hc⟩]
        have h2 : (ctxStep env cfg st (m, raw)).1.1.cross_mode_detected =
            true := by
          rw [ctxStep_flag, hf, hc, Bool.false_or]
        rw [h1, (runCtx_flag_true env cfg _ rest h2).1]
      · have hcf : (updateProfileP env st.1 raw
            (modeTag m)).modes_seen_in.contains (otherTag m) = false := by
          simpa using hc
        have h1 : crossCount (ctxStep env cfg st (m, raw)).2 = 0 := by
          rw [ctxStep_count, if_neg]
          intro hcc
          rw [hcf] at hcc
          exact Bool.noConfusion hcc.2
        have h2 : (ctxStep env cfg st (m, raw)).1.1.cross_mode_detected =
            false := by
          rw [ctxStep_flag, hf, hcf]
          rfl
        have h3 : (runCtx env cfg (ctxStep env cfg st (m, raw)).1 rest).2
            ≤ 1 := by
          have hih := ih (ctxStep env cfg st (m, raw)).1
          rw [h2] at hih
          simpa using hih
        rw [h1, Nat.zero_add]
        exact h3

/-- Every cross-context alert a HOME/ROAM observation emits is CRITICAL. -/
theorem ctxStep_cross_critical (env : Env) (cfg : Config)
    (st : DeviceProfile × LingerState) (s : CtxMode × RawObs) :
    ∀ e ∈ (ctxStep env cfg st s).2,
      e.site = Site.cross_context → e.level = Level.CRITICAL := by
  obtain ⟨m, raw⟩ := s
  cases m
  · intro e he hs
    rcases List.mem_append.mp he with h | h
    · exact (checkCrossMode_alerts env (homeProfile env st.1 raw) "HOME"
        e h).2.1
    · have hlg := (checkLinger_alerts env.now cfg.unknown_ssid_linger_minutes
        _ _ _ _ _ e h).1
      rw [hs] at hlg
      cases hlg
  · intro e he hs
    rcases List.mem_append.mp he with h12 | h3
    · rcases List.mem_append.mp h12 with h1 | h2
      · revert h1
        split
        · intro h1
          simp only [List.mem_singleton] at h1
          subst h1
          cases hs
        · intro h1
          simp at h1
      · revert h2
        split
        · intro h2
          simp only [List.mem_singleton] at h2
          subst h2
          cases hs
        · intro h2
          simp at h2
    · revert h3
      split
      · intro h3
        exact (checkCrossMode_alerts env (roamProfile env st.1 raw) "ROAM"
          e h3).2.1
      · intro h3
        simp at h3

/-- DOORBELL mode never runs the cross-context check: no observation in that
mode emits a cross-context alert. -/
theorem doorbellObs_cross_filter (env : Env) (cfg : Config)
    (prevPresent : List String) (st : DoorbellState) (raw : RawObs) :
    (doorbellObs env cfg prevPresent st raw).2.2.filter
      (fun e => e.site == Site.cross_context) = [] := by
  by_cases hst : doorbellStale env cfg raw = true
  · simp [doorbellObs, hst]
  · have hst' : doorbellStale env cfg raw = false := by
      simpa using hst
    simp only [doorbellObs, hst', Bool.false_eq_true, if_false,
      List.filter_append]
    rw [List.append_eq_nil]
    constructor
    · repeat' split
      all_goals rfl
    · split
      · exact checkLinger_cross_filter _ _ _ _ _ _ _
      · rfl

/-- C3: the cross-context flag flips `false → true` at most once in a
profile's lifetime.  Over any run of HOME/ROAM observations a profile with
the flag clear emits at most one cross-context alert, and with the flag set
it emits none and the flag stays set (so no later observation re-alerts);
the observation that makes the tag set contain both the stationary tag
"HOME" and the roaming tag "ROAM" while the flag is clear emits exactly one
such alert — a CRITICAL — and sets the flag; DOORBELL observations never
emit one. -/
theorem cross_context_alert_fires_once :
    (∀ (env : Env) (cfg : Config) (st : DeviceProfile × LingerState)
        (tr : List (CtxMode × RawObs)),
        (runCtx env cfg st tr).2 ≤
          (if st.1.cross_mode_detected = true then 0 else 1)) ∧
    (∀ (env : Env) (cfg : Config) (st : DeviceProfile × LingerState)
        (tr : List (CtxMode × RawObs)),
        st.1.cross_mode_detected = true →
        (runCtx env cfg st tr).2 = 0 ∧
        (runCtx env cfg st tr).1.1.cross_mode_detected = true) ∧
    (∀ (env : Env) (cfg : Config) (st : DeviceProfile × LingerState)
        (m : CtxMode) (raw : RawObs),
        st.1.cross_mode_detected = false →
        (ctxStep env cfg st (m, raw)).1.1.modes_seen_in.contains "HOME" =
          true →
        (ctxStep env cfg st (m, raw)).1.1.modes_seen_in.contains "ROAM" =
          true →
        crossCount (ctxStep env cfg st (m, raw)).2 = 1 ∧
        (ctxStep env cfg st (m, raw)).1.1.cross_mode_detected = true) ∧
    (∀ (env : Env) (cfg : Config) (st : DeviceProfile × LingerState)
        (s : CtxMode × RawObs),
        ∀ e ∈ (ctxStep env cfg st s).2,
          e.site = Site.cross_context → e.level = Level.CRITICAL) ∧
    (∀ (env : Env) (cfg : Config) (prevPresent : List String)
        (st : DoorbellState) (raw : RawObs),
        (doorbellObs env cfg prevPresent st raw).2.2.filter
          (fun e => e.site == Site.cross_context) = []) := by
  refine ⟨runCtx_count_le, runCtx_flag_true, ?_, ctxStep_cross_critical,
    doorbellObs_cross_filter⟩
  intro env cfg st m raw hf hH hR
  rw [ctxStep_modes] at hH hR
  have hc : (updateProfileP env st.1 raw
      (modeTag m)).modes_seen_in.contains (otherTag m) = true := by
    cases m
    · exact hR
    · exact hH
  constructor
  · rw [ctxStep_count, if_pos ⟨hf, hc⟩]
  · rw [ctxStep_flag, hf, hc]
    rfl

/-- A profile first seen while roaming, for the cross-context witness. -/
def roamSeenProfileC : DeviceProfile := { mac := macC, modes_seen_in := ["ROAM"] }

/-- Witness: a profile with context tags {ROAM} and a clear flag; one
stationary (HOME) observation makes the tag set contain both tags, emits
exactly one cross-context alert and sets the flag; a second stationary
observation emits none — `cross_context_alert_fires_once` applied at these
concrete inputs. -/
theorem cross_context_alert_fires_once_witness :
    (roamSeenProfileC.cross_mode_detected = false ∧
     (ctxStep envC cfgC (roamSeenProfileC, ⟨[], []⟩)
        (CtxMode.home, rawC)).1.1.modes_seen_in.contains "HOME" = true ∧
     (ctxStep envC cfgC (roamSeenProfileC, ⟨[], []⟩)
        (CtxMode.home, rawC)).1.1.modes_seen_in.contains "ROAM" = true ∧
     crossCount (ctxStep envC cfgC (roamSeenProfileC, ⟨[], []⟩)
        (CtxMode.home, rawC)).2 = 1 ∧
     (ctxStep envC cfgC (roamSeenProfileC, ⟨[], []⟩)
        (CtxMode.home, rawC)).1.1.cross_mode_detected = true) ∧
    ((ctxStep envC cfgC (roamSeenProfileC, ⟨[], []⟩)
        (CtxMode.home, rawC)).1.1.cross_mode_detected = true ∧
     (runCtx envC cfgC (ctxStep envC cfgC (roamSeenProfileC, ⟨[], []⟩)
        (CtxMode.home, rawC)).1 [(CtxMode.home, rawC)]).2 = 0) := by
  have h1 := cross_context_alert_fires_once.2.2.1 envC cfgC
    (roamSeenProfileC, ⟨[], []⟩) CtxMode.home rawC rfl rfl rfl
  have h2 := (cross_context_alert_fires_once.2.1 envC cfgC
    (ctxStep envC cfgC (roamSeenProfileC, ⟨[], []⟩) (CtxMode.home, rawC)).1
    [(CtxMode.home, rawC)] h1.2).1
  exact ⟨⟨rfl, rfl, rfl, h1.1, h1.2⟩, ⟨h1.2, h2⟩⟩

/-- Removing a key from an association-list dict makes its lookup fail. -/
theorem eraseKey_lookup {α : Type} (l : List (String × α)) (mac : String) :
    (eraseKey l mac).lookup mac = none := by
  induction l with
  | nil => rfl
  | cons hd tl ih =>
    by_cases hk : hd.1 = mac
    · have hbe : (hd.1 == mac) = true := by simpa using hk
      simp only [eraseKey, List.filter, hbe, Bool.not_true]
      exact ih
    · have hbe : (hd.1 == mac) = false := by simpa using hk
      have hbe2 : (mac == hd.1) = false := by simpa using Ne.symm hk
      simp only [eraseKey, List.filter, hbe, Bool.not_false]
      rw [show ((hd.1, hd.2) :: List.filter (fun kv => !(kv.1 == mac)) tl) =
        (hd.1, hd.2) :: eraseKey tl mac from rfl]
      simp only [List.lookup, hbe2]
      exact ih

/-- Removing an element from a set-as-list makes its membership test fail. -/
theorem filter_ne_contains (l : List String) (mac : String) :
    (l.filter (fun x => !(x == mac))).contains mac = false := by
  have h : mac ∉ l.filter (fun x => !(x == mac)) := by
    intro hm
    have h2 := (List.mem_filter.mp hm).2
    simp at h2
  simp [h]

/-- A streak of consecutive linger checks for one unlabeled device: the
`_check_linger` invocations a device receives while it stays unlabeled, one
per scan cycle, with no intervening reset. -/
def lingerRun (lingerMin : ℚ) (mac : String) :
    LingerState → List ℚ → LingerState × ℕ
  | st, [] => (st, 0)
  | st, now :: rest =>
      let r := checkLinger now lingerMin false mac [] none st
      let t := lingerRun lingerMin mac r.1 rest
      (t.1, r.2.length + t.2)

/-- Once a device is marked alerted, further linger checks of the streak fire
nothing and the mark persists. -/
theorem lingerRun_alerted (lingerMin : ℚ) (mac : String) (st : LingerState)
    (times : List ℚ) (h : st.alerted.contains mac = true) :
    (lingerRun lingerMin mac st times).2 = 0 ∧
    (lingerRun lingerMin mac st times).1.alerted.contains mac = true := by
  induction times generalizing st with
  | nil => exact ⟨rfl, h⟩
  | cons now rest ih =>
    have hstep : checkLinger now lingerMin false mac [] none st =
        (match st.firstSeen.lookup mac with
         | none => (⟨setKey st.firstSeen mac now, st.alerted⟩, [])
         | some t0 =>
             if lingerMin ≤ (now - t0) / 60 ∧ ¬ st.alerted.contains mac then
               (⟨st.firstSeen, st.alerted ++ [mac]⟩,
                [⟨Site.linger, Level.WARNING,
                  lingerMessage mac (([] : List String).headD "(hidden)") none,
                  now⟩])
             else (st, [])) := rfl
    show (checkLinger now lingerMin false mac [] none st).2.length +
      (lingerRun lingerMin mac
        (checkLinger now lingerMin false mac [] none st).1 rest).2 = 0 ∧
      (lingerRun lingerMin mac
        (checkLinger now lingerMin false mac [] none st).1
        rest).1.alerted.contains mac = true
    rw [hstep]
    cases hlk : st.firstSeen.lookup mac with
    | none =>
      simp only
      have := ih ⟨setKey st.firstSeen mac now, st.alerted⟩ h
      exact ⟨by rw [this.1]; rfl, this.2⟩
    | some t0 =>
      simp only
      rw [if_neg]
      · have := ih st h
        exact ⟨by rw [this.1]; rfl, this.2⟩
      · intro hcc
        exact hcc.2 (by simpa using h)

/-- At most one linger WARNING per unbroken streak: over any sequence of
linger checks of an unlabeled device, at most one alert fires, and none at
all if the device is already marked alerted. -/
theorem lingerRun_le (lingerMin : ℚ) (mac : String) (st : LingerState)
    (times : List ℚ) :
    (lingerRun lingerMin mac st times).2 ≤
      (if st.alerted.contains mac = true then 0 else 1) := by
  induction times generalizing st with
  | nil => exact Nat.zero_le _
  | cons now rest ih =>
    have hstep : checkLinger now lingerMin false mac [] none st =
        (match st.firstSeen.lookup mac with
         | none => (⟨setKey st.firstSeen mac now, st.alerted⟩, [])
         | some t0 =>
             if lingerMin ≤ (now - t0) / 60 ∧ ¬ st.alerted.contains mac then
               (⟨st.firstSeen, st.alerted ++ [mac]⟩,
                [⟨Site.linger, Level.WARNING,
                  lingerMessage mac (([] : List String).headD "(hidden)") none,
                  now⟩])
             else (st, [])) := rfl
    show (checkLinger now lingerMin false mac [] none st).2.length +
      (lingerRun lingerMin mac
        (checkLinger now lingerMin false mac [] none st).1 rest).2 ≤ _
    rw [hstep]
    cases hlk : st.firstSeen.lookup mac with
    | none =>
      simp only
      have := ih ⟨setKey st.firstSeen mac now, st.alerted⟩
      simpa using this
    | some t0 =>
      simp only
      split
      · rename_i hcond
        have hal : st.alerted.contains mac = false := by
          rcases Bool.eq_false_or_eq_true (st.alerted.contains mac) with h | h
          · exact absurd (by simpa using h) hcond.2
          · exact h
        rw [if_neg (by rw [hal]; exact (by decide))]
        have hrest := (lingerRun_alerted lingerMin mac
          ⟨st.firstSeen, st.alerted ++ [mac]⟩ rest (by simp)).1
        rw [hrest]
        simp
      · have := ih st
        simpa using this

/-- The firing condition of `_check_linger`, exactly: a tracked unlabeled
device whose elapsed minutes reach the threshold and that is not yet marked
fires one WARNING and is marked alerted, with the first-seen entry kept. -/
theorem checkLinger_fires (now lingerMin : ℚ) (mac : String)
    (ssids : List String) (signal : Option Int) (st : LingerState) (t0 : ℚ)
    (hlk : st.firstSeen.lookup mac = some t0)
    (hth : lingerMin ≤ (now - t0) / 60)
    (hal : st.alerted.contains mac = false) :
    checkLinger now lingerMin false mac ssids signal st =
      (⟨st.firstSeen, st.alerted ++ [mac]⟩,
       [⟨Site.linger, Level.WARNING,
         lingerMessage mac (ssids.headD "(hidden)") signal, now⟩]) := by
  unfold checkLinger
  rw [hlk]
  show (if lingerMin ≤ (now - t0) / 60 ∧ ¬ st.alerted.contains mac = true then
      ((⟨st.firstSeen, st.alerted ++ [mac]⟩ : LingerState),
       [(⟨Site.linger, Level.WARNING,
          lingerMessage mac (ssids.headD "(hidden)") signal, now⟩ : Emitted)])
    else (st, [])) = _
  rw [if_pos ⟨hth, by rw [hal]; exact (by decide)⟩]

/-- A linger check that sees the device as known (labeled) clears both the
first-seen entry and the alerted mark, and fires nothing. -/
theorem checkLinger_known_clears (now lingerMin : ℚ) (mac : String)
    (ssids : List String) (signal : Option Int) (st : LingerState) :
    (checkLinger now lingerMin true mac ssids signal st).1.firstSeen.lookup
      mac = none ∧
    (checkLinger now lingerMin true mac ssids signal st).1.alerted.contains
      mac = false ∧
    (checkLinger now lingerMin true mac ssids signal st).2 = [] :=
  ⟨eraseKey_lookup st.firstSeen mac, filter_ne_contains st.alerted mac, rfl⟩

/-- A doorbell departure clears the device's linger state and its
unknown-streak counter. -/
theorem doorbellDeparture_clears (env : Env) (st : DoorbellState)
    (mac : String) :
    (doorbellDeparture env st mac).1.linger.firstSeen.lookup mac = none ∧
    (doorbellDeparture env st mac).1.linger.alerted.contains mac = false ∧
    (doorbellDeparture env st mac).1.streak.lookup mac = none :=
  ⟨eraseKey_lookup st.linger.firstSeen mac,
   filter_ne_contains st.linger.alerted mac,
   eraseKey_lookup st.streak mac⟩

/-- A DOORBELL observation of a labeled device leaves the linger state
untouched: the linger check is skipped for labeled devices, so streak state
survives until departure. -/
theorem doorbellObs_labeled_keeps_linger (env : Env) (cfg : Config)
    (prevPresent : List String) (st : DoorbellState) (raw : RawObs)
    (p : DeviceProfile) (hlk : st.devices.lookup raw.mac = some p)
    (hlabel : p.label ≠ "") :
    (doorbellObs env cfg prevPresent st raw).1.linger = st.linger := by
  have hget : getOrCreate env st.devices raw = p := by
    unfold getOrCreate
    rw [hlk]
  have hlabel1 : (updateProfileP env p raw "DOORBELL").label ≠ "" := by
    rw [(updateProfileP_preserves env p raw "DOORBELL").1]
    exact hlabel
  by_cases hst : doorbellStale env cfg raw = true
  · simp [doorbellObs, hst]
  · have hst' : doorbellStale env cfg raw = false := by
      simpa using hst
    simp only [doorbellObs, hst', Bool.false_eq_true, if_false, hget]
    rw [if_neg hlabel1]

/-- A HOME-mode observation of a labeled profile clears the device's linger
streak state: HOME runs the linger check on every observation, and for a
known device the check drops both entries. -/
theorem homeObsP_labeled_clears_linger (env : Env) (cfg : Config)
    (p0 : DeviceProfile) (ling : LingerState) (raw : RawObs)
    (hlabel : p0.label ≠ "") :
    (homeObsP env cfg p0 ling raw).2.1.firstSeen.lookup raw.mac = none ∧
    (homeObsP env cfg p0 ling raw).2.1.alerted.contains raw.mac = false := by
  have hkb : (decide ((checkCrossMode env (homeProfile env p0 raw)
      "HOME").1.label ≠ "")) = true := by
    apply decide_eq_true
    rw [(checkCrossMode_keeps env (homeProfile env p0 raw) "HOME").2.1,
      (homeProfile_preserves env p0 raw).1]
    exact hlabel
  show (checkLinger env.now cfg.unknown_ssid_linger_minutes
      (decide ((checkCrossMode env (homeProfile env p0 raw) "HOME").1.label
        ≠ "")) raw.mac (checkCrossMode env (homeProfile env p0 raw)
        "HOME").1.ssids raw.signal ling).1.firstSeen.lookup raw.mac = none ∧
    (checkLinger env.now cfg.unknown_ssid_linger_minutes
      (decide ((checkCrossMode env (homeProfile env p0 raw) "HOME").1.label
        ≠ "")) raw.mac (checkCrossMode env (homeProfile env p0 raw)
        "HOME").1.ssids raw.signal ling).1.alerted.contains raw.mac = false
  rw [hkb]
  exact ⟨(checkLinger_known_clears _ _ _ _ _ _).1,
    (checkLinger_known_clears _ _ _ _ _ _).2.1⟩

/-- Once the device is marked alerted, a further linger check of the streak
fires nothing. -/
theorem checkLinger_alerted_silent (now lingerMin : ℚ) (mac : String)
    (ssids : List String) (signal : Option Int) (st : LingerState)
    (hal : st.alerted.contains mac = true) :
    (checkLinger now lingerMin false mac ssids signal st).2 = [] := by
  unfold checkLinger
  cases hlk : st.firstSeen.lookup mac with
  | none =>
    rfl
  | some t0 =>
    show (if lingerMin ≤ (now - t0) / 60 ∧ ¬ st.alerted.contains mac = true
        then ((⟨st.firstSeen, st.alerted ++ [mac]⟩ : LingerState),
          [(⟨Site.linger, Level.WARNING,
             lingerMessage mac (ssids.headD "(hidden)") signal, now⟩ :
            Emitted)])
        else (st, [])).2 = []
    rw [if_neg (fun hcc => hcc.2 hal)]

/-- Linger bookkeeping mid-streak, with the device tracked since clock 0 and
already alerted. -/
def lingerStateC : LingerState := ⟨[(macC, 0)], [macC]⟩

/-- A doorbell cycle state in which the tracked device has since been
labeled. -/
def doorbellStateC : DoorbellState :=
  ⟨[(macC, labeledProfileC)], [], lingerStateC⟩

/-- C5 counterexample: in DOORBELL mode a device that acquired a label while
continuously present keeps its stale linger streak state — the linger check
is skipped for labeled devices and only a departure clears it.  This refutes
"in every mode the streak state is cleared the moment the device acquires a
label". -/
theorem doorbell_labeled_present_keeps_linger :
    labeledProfileC.label ≠ "" ∧
    [macC].contains rawC.mac = true ∧
    (doorbellObs envC cfgC [macC] doorbellStateC rawC).1.linger =
      lingerStateC ∧
    (doorbellObs envC cfgC [macC] doorbellStateC
      rawC).1.linger.firstSeen.lookup rawC.mac = some 0 :=
  ⟨by decide, by decide, rfl, rfl⟩

/-- C5 (amended): at most one linger WARNING fires per unbroken presence
streak of an unlabeled device — the first check at which the elapsed minutes
since the streak's first sighting reach the threshold fires one WARNING and
marks the device alerted, and an alerted device fires nothing more.  The
streak state is cleared when a linger check processes the device as labeled
(HOME mode runs this check on every observation) and when a DOORBELL cycle
registers the device's departure; but a labeled device continuously present
in DOORBELL mode keeps its linger state untouched until departure, because
that mode skips the linger check for labeled devices. -/
theorem linger_alert_once_per_streak :
    (∀ (lingerMin : ℚ) (mac : String) (st : LingerState) (times : List ℚ),
      (lingerRun lingerMin mac st times).2 ≤
        (if st.alerted.contains mac = true then 0 else 1)) ∧
    (∀ (now lingerMin : ℚ) (mac : String) (ssids : List String)
        (signal : Option Int) (st : LingerState) (t0 : ℚ),
        st.firstSeen.lookup mac = some t0 →
        lingerMin ≤ (now - t0) / 60 →
        st.alerted.contains mac = false →
        checkLinger now lingerMin false mac ssids signal st =
          (⟨st.firstSeen, st.alerted ++ [mac]⟩,
           [⟨Site.linger, Level.WARNING,
             lingerMessage mac (ssids.headD "(hidden)") signal, now⟩])) ∧
    (∀ (now lingerMin : ℚ) (mac : String) (ssids : List String)
        (signal : Option Int) (st : LingerState),
        st.alerted.contains mac = true →
        (checkLinger now lingerMin false mac ssids signal st).2 = []) ∧
    (∀ (now lingerMin : ℚ) (mac : String) (ssids : List String)
        (signal : Option Int) (st : LingerState),
        (checkLinger now lingerMin true mac ssids signal st).1.firstSeen.lookup
          mac = none ∧
        (checkLinger now lingerMin true mac ssids signal st).1.alerted.contains
          mac = false ∧
        (checkLinger now lingerMin true mac ssids signal st).2 = []) ∧
    (∀ (env : Env) (st : DoorbellState) (mac : String),
        (doorbellDeparture env st mac).1.linger.firstSeen.lookup mac = none ∧
        (doorbellDeparture env st mac).1.linger.alerted.contains mac = false ∧
        (doorbellDeparture env st mac).1.streak.lookup mac = none) ∧
    (∀ (env : Env) (cfg : Config) (p0 : DeviceProfile) (ling : LingerState)
        (raw : RawObs), p0.label ≠ "" →
        (homeObsP env cfg p0 ling raw).2.1.firstSeen.lookup raw.mac = none ∧
        (homeObsP env cfg p0 ling raw).2.1.alerted.contains raw.mac = false) ∧
    (∀ (env : Env) (cfg : Config) (prevPresent : List String)
        (st : DoorbellState) (raw : RawObs) (p : DeviceProfile),
        st.devices.lookup raw.mac = some p → p.label ≠ "" →
        (doorbellObs env cfg prevPresent st raw).1.linger = st.linger) :=
  ⟨lingerRun_le, checkLinger_fires, checkLinger_alerted_silent,
   checkLinger_known_clears, doorbellDeparture_clears,
   homeObsP_labeled_clears_linger, doorbellObs_labeled_keeps_linger⟩

/-- Witness: `linger_alert_once_per_streak` at concrete inputs — a streak of
two checks fires at most once; a device tracked since clock 0 and checked at
clock 600 (10 elapsed minutes ≥ the 5-minute threshold) fires the WARNING
and is marked; an alerted device stays silent; a known-device check, a
departure, and a labeled HOME observation clear the state; a labeled
present DOORBELL device keeps it. -/
theorem linger_alert_once_per_streak_witness :
    ((lingerRun 5 macC ⟨[], []⟩ [0, 600]).2 ≤
      (if (⟨[], []⟩ : LingerState).alerted.contains macC = true then 0
       else 1)) ∧
    ((List.lookup macC [(macC, 0)] = some 0 ∧ (5 : ℚ) ≤ (600 - 0) / 60 ∧
      ([] : List String).contains macC = false) ∧
      checkLinger 600 5 false macC [] none ⟨[(macC, 0)], []⟩ =
        (⟨[(macC, 0)], [macC]⟩,
         [⟨Site.linger, Level.WARNING, lingerMessage macC "(hidden)" none,
           600⟩])) ∧
    (checkLinger 700 5 false macC [] none lingerStateC).2 = [] ∧
    ((checkLinger 0 5 true macC [] none lingerStateC).1.firstSeen.lookup macC
      = none) ∧
    ((doorbellDeparture envC doorbellStateC macC).1.linger.firstSeen.lookup
      macC = none) ∧
    (labeledProfileC.label ≠ "" ∧
      (homeObsP envC cfgC labeledProfileC lingerStateC
        rawC).2.1.firstSeen.lookup rawC.mac = none) ∧
    ((doorbellObs envC cfgC [macC] doorbellStateC rawC).1.linger =
      doorbellStateC.linger) :=
  ⟨linger_alert_once_per_streak.1 5 macC ⟨[], []⟩ [0, 600],
   ⟨⟨rfl, by norm_num, rfl⟩,
    linger_alert_once_per_streak.2.1 600 5 macC [] none ⟨[(macC, 0)], []⟩ 0
      rfl (by norm_num) rfl⟩,
   linger_alert_once_per_streak.2.2.1 700 5 macC [] none lingerStateC
     (by decide),
   (linger_alert_once_per_streak.2.2.2.1 0 5 macC [] none lingerStateC).1,
   (linger_alert_once_per_streak.2.2.2.2.1 envC doorbellStateC macC).1,
   ⟨by decide,
    (linger_alert_once_per_streak.2.2.2.2.2.1 envC cfgC labeledProfileC
      lingerStateC rawC (by decide)).1⟩,
   linger_alert_once_per_streak.2.2.2.2.2.2 envC cfgC [macC] doorbellStateC
     rawC labeledProfileC rfl (by decide)⟩

/-- One entry of `locations_seen` in the GPS subsystem
(multi_location_tracker.py lines 240-245): the sighting's coordinates, the
nearest checkpoint's label, the row's last-seen timestamp (kept as a string)
and signal. -/
structure LocationSighting where
  lat : ℚ
  lon : ℚ
  label : String := ""
  timestamp : String := ""
  signal : Option Int := none
deriving DecidableEq, Repr

/-- The `StalkerProfile` dataclass (multi_location_tracker.py lines 59-76).
`last_seen` is modelled as the result of parsing the stored ISO string:
`some t` when `datetime.fromisoformat` succeeds, `none` when the string is
empty or unparsable (the `except` path of `_compute_scores`). -/
structure StalkerProfile where
  mac : String
  label : String := ""
  manufacturer : String := ""
  ssids : List String := []
  locations_seen : List LocationSighting := []
  unique_location_count : ℕ := 0
  total_hits : ℕ := 0
  stalker_score : ℚ := 0
  first_seen : Option ℚ := none
  last_seen : Option ℚ := none
  notes : String := ""
deriving DecidableEq, Repr

/-- The recency weight of `_compute_scores` (multi_location_tracker.py
lines 268-273): `1 / (1 + max(0, days_ago))` on a parsable timestamp and the
`except` fallback `0.5` otherwise. -/
def recencyMLT (now : ℚ) (last_seen : Option ℚ) : ℚ :=
  match last_seen with
  | some t => 1 / (1 + max 0 ((now - t) / 86400))
  | none => 1/2

/-- The per-profile body of `_compute_scores` (multi_location_tracker.py
lines 264-278), with `math.log` abstracted as the function parameter `logf`
(floats are not embeddable; the formula's shape is the source's):
score 0 for fewer than two distinct locations, else
`count² · log(hits+1) · recency`. -/
def computeScoreMLT (logf : ℕ → ℚ) (now : ℚ) (p : StalkerProfile) :
    StalkerProfile :=
  if p.unique_location_count < 2 then { p with stalker_score := 0 }
  else
    { p with stalker_score :=
        (p.unique_location_count : ℚ) ^ 2 * logf (p.total_hits + 1) *
          recencyMLT now p.last_seen }

/-- `_compute_scores` over the profile registry (values in insertion
order). -/
def computeScores (logf : ℕ → ℚ) (now : ℚ) (ps : List StalkerProfile) :
    List StalkerProfile :=
  ps.map (computeScoreMLT logf now)

/-- The stalker-score formula as claim C4 words it, with the 0.1 fallback
weight for an unparsable last-seen timestamp. -/
def specStalkerScoreClaimed (logf : ℕ → ℚ) (now : ℚ) (p : StalkerProfile) :
    ℚ :=
  if p.unique_location_count < 2 then 0
  else
    (p.unique_location_count : ℚ) ^ 2 * logf (p.total_hits + 1) *
      (match p.last_seen with
       | some t => 1 / (1 + max 0 ((now - t) / 86400))
       | none => 1/10)

/-- The stalker-score formula amended to the code's fallback: weight 0.5 for
an unparsable last-seen timestamp. -/
def specStalkerScoreMLT (logf : ℕ → ℚ) (now : ℚ) (p : StalkerProfile) : ℚ :=
  if p.unique_location_count < 2 then 0
  else
    (p.unique_location_count : ℚ) ^ 2 * logf (p.total_hits + 1) *
      (match p.last_seen with
       | some t => 1 / (1 + max 0 ((now - t) / 86400))
       | none => 1/2)

/-- A stalker profile at two distinct locations with ten hits and an
unparsable last-seen timestamp. -/
def stalkerP0 : StalkerProfile :=
  { mac := macC, unique_location_count := 2, total_hits := 10 }

/-- C4 counterexample: on a profile with an unparsable last-seen timestamp,
2 distinct locations and 10 hits, `_compute_scores` yields
`4 · log(11) · 0.5`, while the claimed formula's 0.1 fallback yields
`4 · log(11) · 0.1` — different for any non-zero logarithm value
(instantiated here with a unit logarithm; the real `ln 11 ≈ 2.398` is also
non-zero).  The 0.1 fallback belongs to the detection engine's
`_recency_score`, not to the GPS subsystem. -/
theorem stalker_score_fallback_counterexample :
    stalkerP0.last_seen = none ∧
    (computeScores (fun _ => 1) 0 [stalkerP0]).map
      (fun p => p.stalker_score) = [2] ∧
    specStalkerScoreClaimed (fun _ => 1) 0 stalkerP0 = 2/5 ∧
    (computeScores (fun _ => 1) 0 [stalkerP0]).map
      (fun p => p.stalker_score) ≠
      [specStalkerScoreClaimed (fun _ => 1) 0 stalkerP0] := by
  refine ⟨rfl, ?_, ?_, ?_⟩
  · show [(computeScoreMLT (fun _ => 1) 0 stalkerP0).stalker_score] = [2]
    norm_num [computeScoreMLT, recencyMLT, stalkerP0]
  · norm_num [specStalkerScoreClaimed, stalkerP0]
  · intro h
    have h1 : (computeScores (fun _ => 1) 0 [stalkerP0]).map
        (fun p => p.stalker_score) = [2] := by
      show [(computeScoreMLT (fun _ => 1) 0 stalkerP0).stalker_score] = [2]
      norm_num [computeScoreMLT, recencyMLT, stalkerP0]
    have h2 : specStalkerScoreClaimed (fun _ => 1) 0 stalkerP0 = 2/5 := by
      norm_num [specStalkerScoreClaimed, stalkerP0]
    rw [h1, h2] at h
    have h3 : (2 : ℚ) = 2/5 := by
      injection h
    norm_num at h3

/-- C4 (amended): after a recomputation every stalker score equals the
formula `count² · log(hits+1) · recency(last_seen)` with score forced to 0
below two distinct locations — but the fallback recency weight for an
unparsable timestamp is 0.5, not 0.1; all other profile fields are kept. -/
theorem stalker_score_formula (logf : ℕ → ℚ) (now : ℚ)
    (ps : List StalkerProfile) :
    (computeScores logf now ps).map (fun p => p.stalker_score) =
      ps.map (specStalkerScoreMLT logf now) ∧
    (computeScores logf now ps).map (fun p => p.mac) =
      ps.map (fun p => p.mac) ∧
    (computeScores logf now ps).map (fun p => p.unique_location_count) =
      ps.map (fun p => p.unique_location_count) ∧
    (∀ p ∈ ps, p.unique_location_count < 2 →
      specStalkerScoreMLT logf now p = 0) := by
  have hel : ∀ p : StalkerProfile,
      (computeScoreMLT logf now p).stalker_score =
        specStalkerScoreMLT logf now p := by
    intro p
    by_cases h : p.unique_location_count < 2 <;>
      simp [computeScoreMLT, specStalkerScoreMLT, recencyMLT, h]
  have hkeep : ∀ p : StalkerProfile,
      (computeScoreMLT logf now p).mac = p.mac ∧
      (computeScoreMLT logf now p).unique_location_count =
        p.unique_location_count := by
    intro p
    by_cases h : p.unique_location_count < 2 <;>
      simp [computeScoreMLT, h]
  refine ⟨?_, ?_, ?_, ?_⟩
  · induction ps with
    | nil => rfl
    | cons hd tl ih =>
      show (computeScoreMLT logf now hd).stalker_score ::
        (computeScores logf now tl).map (fun p => p.stalker_score) = _
      rw [hel hd, ih]
      rfl
  · induction ps with
    | nil => rfl
    | cons hd tl ih =>
      show (computeScoreMLT logf now hd).mac ::
        (computeScores logf now tl).map (fun p => p.mac) = _
      rw [(hkeep hd).1, ih]
      rfl
  · induction ps with
    | nil => rfl
    | cons hd tl ih =>
      show (computeScoreMLT logf now hd).unique_location_count ::
        (computeScores logf now tl).map
          (fun p => p.unique_location_count) = _
      rw [(hkeep hd).2, ih]
      rfl
  · intro p _ h
    simp [specStalkerScoreMLT, h]

/-- Witness: `stalker_score_formula`'s below-two-locations clause evaluated
on a one-location profile. -/
theorem stalker_score_formula_witness :
    ((⟨macC, "", "", [], [], 1, 7, 0, none, none, ""⟩ :
        StalkerProfile).unique_location_count < 2) ∧
    specStalkerScoreMLT (fun _ => 1) 0
      (⟨macC, "", "", [], [], 1, 7, 0, none, none, ""⟩ : StalkerProfile) =
      0 :=
  ⟨by decide,
   (stalker_score_formula (fun _ => 1) 0
     [⟨macC, "", "", [], [], 1, 7, 0, none, none, ""⟩]).2.2.2
     ⟨macC, "", "", [], [], 1, 7, 0, none, none, ""⟩
     (List.mem_singleton.mpr rfl) (by decide)⟩

end SentinelWatch
